import Mathlib

/-!
Verification of the crane runway beam analysis program (CraneRunwayProV6).

The program's numeric code (Python floats) is embedded over `ℚ`.  Irrational
operations of the source (`math.sqrt`, cube root via `** (1/3)`, `math.pi`,
and the decimal formatting used in one diagnostic string) are parameters,
collected in `RealOps`; every theorem below holds for an arbitrary
interpretation of these operations, and witnesses instantiate them with
concrete rational functions.  Fallible source code (expressions where Python
raises `ZeroDivisionError` / `ValueError`) is embedded with `Option`:
`none` exactly at the inputs where the source raises.
-/

set_option maxHeartbeats 1000000

/-- Interpretation of the source's irrational real operations. -/
structure RealOps where
  sqrt : ℚ → ℚ
  cbrt : ℚ → ℚ
  pi : ℚ
  fmtRpg : ℚ → String

/-- `E_STEEL = 200000` MPa, module-level constant of the source. -/
def E_STEEL : ℚ := 200000

/-- `GRAVITY = 9.81` m/s², module-level constant of the source. -/
def GRAVITY : ℚ := 9.81

/-- `RHO_STEEL = 7850` kg/m³, module-level constant of the source. -/
def RHO_STEEL : ℚ := 7850

def OMEGA_FLEX : ℚ := 1.67
def OMEGA_SHEAR : ℚ := 1.50
def OMEGA_SHEAR_TFA : ℚ := 1.67
def OMEGA_WLY : ℚ := 1.50
def OMEGA_WCR : ℚ := 2.00

/-- Embedding of the `CraneData` dataclass (source lines 408-434). -/
structure CraneData where
  crane_id : ℕ := 1
  capacity_tonnes : ℚ := 10
  bridge_weight : ℚ := 5
  trolley_weight : ℚ := 0.72
  bridge_span : ℚ := 15
  min_hook_approach : ℚ := 1
  wheel_base : ℚ := 2.2
  buffer_left : ℚ := 0.29
  buffer_right : ℚ := 0.29
  num_wheels : ℕ := 2
  impact_v : ℚ := 0.25
  impact_h : ℚ := 0.20
  impact_l : ℚ := 0.10
  wheel_spacing_12 : ℚ := 0
  wheel_spacing_23 : ℚ := 0
  wheel_spacing_34 : ℚ := 0
  use_direct_input : Bool := false
  direct_max_wheel_load : ℚ := 0
  direct_min_wheel_load : ℚ := 0
  direct_lateral_load : ℚ := 0
deriving DecidableEq

instance : Inhabited CraneData := ⟨{}⟩

namespace CraneData

/-- `CraneData.get_wheel_positions_relative` (source lines 436-461). -/
def get_wheel_positions_relative (c : CraneData) : List ℚ :=
  if c.num_wheels = 2 then
    [0, c.wheel_base]
  else if c.num_wheels = 4 then
    if 0 < c.wheel_spacing_12 ∧ 0 < c.wheel_spacing_23 ∧ 0 < c.wheel_spacing_34 then
      [0, c.wheel_spacing_12,
       c.wheel_spacing_12 + c.wheel_spacing_23,
       c.wheel_spacing_12 + c.wheel_spacing_23 + c.wheel_spacing_34]
    else
      let spacing := c.wheel_base / 3
      [0, spacing, 2 * spacing, c.wheel_base]
  else if c.num_wheels ≤ 1 then
    [0]
  else
    let spacing := c.wheel_base / (c.num_wheels - 1 : ℕ)
    (List.range c.num_wheels).map (fun i => (i : ℚ) * spacing)

/-- `CraneData.get_total_wheel_base` (source lines 463-466). -/
def get_total_wheel_base (c : CraneData) : ℚ :=
  let positions := c.get_wheel_positions_relative
  if 1 < positions.length then positions.getLastD 0 - positions.headD 0 else 0

/-- `CraneData.calc_wheel_loads` (source lines 468-487).  The Python
`a or b` idiom on the direct minimum load is: the minimum is returned
verbatim unless it is (falsy) zero, in which case 20% of the maximum is
used. -/
def calc_wheel_loads (c : CraneData) : ℚ × ℚ :=
  if c.use_direct_input ∧ 0 < c.direct_max_wheel_load then
    (c.direct_max_wheel_load,
     if c.direct_min_wheel_load ≠ 0 then c.direct_min_wheel_load
     else c.direct_max_wheel_load * 0.2)
  else
    let Lb := c.bridge_span
    let e_min := c.min_hook_approach
    let P_lift := c.capacity_tonnes * GRAVITY
    let P_trolley := c.trolley_weight * GRAVITY
    let P_bridge := c.bridge_weight * GRAVITY
    let R_bridge_each := P_bridge / 2
    let P_moving := P_lift + P_trolley
    let R_max := R_bridge_each + P_moving * (Lb - e_min) / Lb
    let R_min := R_bridge_each + P_moving * e_min / Lb
    (R_max / (c.num_wheels : ℚ), R_min / (c.num_wheels : ℚ))

/-- `CraneData.get_wheel_load_with_impact` (source lines 489-491). -/
def get_wheel_load_with_impact (c : CraneData) : ℚ :=
  (c.calc_wheel_loads).1 * (1 + c.impact_v)

/-- `CraneData.get_min_wheel_load_with_impact` (source lines 493-495). -/
def get_min_wheel_load_with_impact (c : CraneData) : ℚ :=
  (c.calc_wheel_loads).2 * (1 + c.impact_v)

/-- `CraneData.get_lateral_load_per_wheel` (source lines 497-504). -/
def get_lateral_load_per_wheel (c : CraneData) : ℚ :=
  if c.use_direct_input ∧ 0 < c.direct_lateral_load then
    c.direct_lateral_load
  else
    let P_lift := c.capacity_tonnes * GRAVITY
    let P_trolley := c.trolley_weight * GRAVITY
    let H_total := c.impact_h * (P_lift + P_trolley)
    H_total / (2 * (c.num_wheels : ℚ))

/-- `CraneData.get_longitudinal_force` (source lines 506-508). -/
def get_longitudinal_force (c : CraneData) : ℚ :=
  c.impact_l * (c.calc_wheel_loads).1 * (c.num_wheels : ℚ)

end CraneData

/-- Embedding of the `Section` dataclass (source lines 511-553): input
dimensions, cap-channel data, and derived section properties. -/
@[ext] structure Sect where
  name : String := "Custom"
  sec_type : String := "hot_rolled"
  d : ℚ := 0
  bf : ℚ := 0
  tf : ℚ := 0
  tw : ℚ := 0
  r : ℚ := 0
  bf_top : ℚ := 0
  tf_top : ℚ := 0
  bf_bot : ℚ := 0
  tf_bot : ℚ := 0
  hw : ℚ := 0
  has_cap : Bool := false
  cap_name : String := ""
  cap_A : ℚ := 0
  cap_Ix : ℚ := 0
  cap_Iy : ℚ := 0
  cap_d : ℚ := 0
  cap_cy : ℚ := 0
  A : ℚ := 0
  Ix : ℚ := 0
  Iy : ℚ := 0
  Sx : ℚ := 0
  Sy : ℚ := 0
  Zx : ℚ := 0
  rx : ℚ := 0
  ry : ℚ := 0
  rts : ℚ := 0
  J : ℚ := 0
  Cw : ℚ := 0
  ho : ℚ := 0
  y_bar : ℚ := 0
  mass : ℚ := 0
deriving DecidableEq

namespace Sect

/-- The default-filling step at the head of `Sect._calc_built_up_props`
(source lines 563-571): copy symmetric flange data when `bf_top` is unset and
derive the clear web height when `hw` is unset. -/
def bu_set_defaults (s : Sect) : Sect :=
  let s1 := if s.bf_top = 0 then
      { s with bf_top := s.bf, tf_top := s.tf, bf_bot := s.bf, tf_bot := s.tf }
    else s
  if s1.hw = 0 then { s1 with hw := s1.d - s1.tf_top - s1.tf_bot } else s1

/-- The first-principles property derivation of `Sect._calc_built_up_props`
(source lines 573-623), after the defaults have been set. -/
def bu_core (s : Sect) : Sect :=
  let A_tf := s.bf_top * s.tf_top
  let A_bf := s.bf_bot * s.tf_bot
  let A_w := s.hw * s.tw
  let A_I := A_tf + A_bf + A_w
  let y_tf := s.tf_bot + s.hw + s.tf_top / 2
  let y_bf := s.tf_bot / 2
  let y_w := s.tf_bot + s.hw / 2
  let withCap := s.has_cap ∧ 0 < s.cap_A
  let A' := if withCap then A_I + s.cap_A else A_I
  let y_bar' :=
    if withCap then
      (A_tf * y_tf + A_bf * y_bf + A_w * y_w + s.cap_A * (s.d + s.cap_cy)) / A'
    else
      (A_tf * y_tf + A_bf * y_bf + A_w * y_w) / max A_I 1
  let ho' := s.d - (s.tf_top + s.tf_bot) / 2
  let I_tf := s.bf_top * s.tf_top ^ 3 / 12 + A_tf * (y_tf - y_bar') ^ 2
  let I_bf := s.bf_bot * s.tf_bot ^ 3 / 12 + A_bf * (y_bf - y_bar') ^ 2
  let I_w := s.tw * s.hw ^ 3 / 12 + A_w * (y_w - y_bar') ^ 2
  let Ix' :=
    if withCap then
      I_tf + I_bf + I_w + (s.cap_Ix + s.cap_A * ((s.d + s.cap_cy) - y_bar') ^ 2)
    else I_tf + I_bf + I_w
  let Iy' :=
    if withCap then
      (s.tf_top * s.bf_top ^ 3 + s.tf_bot * s.bf_bot ^ 3 + s.hw * s.tw ^ 3) / 12 + s.cap_Iy
    else
      (s.tf_top * s.bf_top ^ 3 + s.tf_bot * s.bf_bot ^ 3 + s.hw * s.tw ^ 3) / 12
  let c_top := (if s.has_cap then s.d + s.cap_d else s.d) - y_bar'
  let c_bot := y_bar'
  let Sx' := Ix' / max c_top c_bot
  let Sy' := Iy' / max (s.bf_top / 2) (max (s.bf_bot / 2) 1)
  let J' := (s.bf_top * s.tf_top ^ 3 + s.bf_bot * s.tf_bot ^ 3 + s.hw * s.tw ^ 3) / 3
  let Cw' := if 0 < ho' then Iy' * ho' ^ 2 / 4 else 1
  { s with A := A', y_bar := y_bar', ho := ho', Ix := Ix', Iy := Iy',
           Sx := Sx', Sy := Sy', J := J', Cw := Cw' }

/-- The default-filling step at the head of `Sect._calc_hot_rolled_props`
(source lines 626-636). -/
def hr_set_defaults (s : Sect) : Sect :=
  let s1 := if s.hw = 0 then { s with hw := s.d - 2 * s.tf } else s
  let s2 := if s1.ho = 0 then { s1 with ho := s1.d - s1.tf } else s1
  if s2.bf_top = 0 then
    { s2 with bf_top := s2.bf, tf_top := s2.tf, bf_bot := s2.bf, tf_bot := s2.tf }
  else s2

/-- The cap-channel recombination of `Sect._calc_hot_rolled_props`
(source lines 638-660): parallel-axis shift of the catalog properties.  Note
that it reads the *current* `A` and `Ix` fields, so it is sensitive to the
values those fields already hold. -/
def hr_cap (s : Sect) : Sect :=
  if s.has_cap ∧ 0 < s.cap_A then
    let A_I := if 0 < s.A then s.A else 2 * s.bf * s.tf + s.hw * s.tw
    let y_I := s.d / 2
    let y_cap := s.d + s.cap_cy
    let total_A := A_I + s.cap_A
    let y_bar' := (A_I * y_I + s.cap_A * y_cap) / total_A
    let I_I := if 0 < s.Ix then s.Ix else s.bf * s.d ^ 3 / 12 - (s.bf - s.tw) * s.hw ^ 3 / 12
    let I_cap := s.cap_Ix + s.cap_A * (y_cap - y_bar') ^ 2
    let I_I_shifted := I_I + A_I * (y_I - y_bar') ^ 2
    let Ix' := I_I_shifted + I_cap
    let Iy' := if 0 < s.Iy then s.Iy + s.cap_Iy else s.Iy
    let c_top := (s.d + s.cap_d) - y_bar'
    let c_bot := y_bar'
    let Sx' := Ix' / max c_top c_bot
    { s with y_bar := y_bar', Ix := Ix', A := total_A, Iy := Iy', Sx := Sx' }
  else s

/-- `Sect._calc_common_props` (source lines 665-685): the shared finishing
step.  It recomputes `rx`/`ry` whenever `A > 0` and fills `Zx`, `J`, `Cw`,
`rts`, `mass` only when they are still zero; the `rts` rule reads the `Cw`
value updated just before it, mirroring the source's statement order. -/
def calc_common_props (ops : RealOps) (s : Sect) : Sect :=
  let rx' := if 0 < s.A then (if 0 < s.Ix then ops.sqrt (s.Ix / s.A) else 0) else s.rx
  let ry' := if 0 < s.A then (if 0 < s.Iy then ops.sqrt (s.Iy / s.A) else 0) else s.ry
  let Zx' := if s.Zx = 0 ∧ 0 < s.Sx then s.Sx * 1.12 else s.Zx
  let J' := if s.J = 0 then (2 * s.bf * s.tf ^ 3 + s.hw * s.tw ^ 3) / 3 else s.J
  let Cw' := if s.Cw = 0 ∧ 0 < s.ho ∧ 0 < s.Iy then s.Iy * s.ho ^ 2 / 4 else s.Cw
  let rts' := if s.rts = 0 ∧ 0 < s.Sx ∧ 0 < s.Iy ∧ 0 < Cw' then
      ops.sqrt (ops.sqrt (s.Iy * Cw') / s.Sx)
    else s.rts
  let mass' := if s.mass = 0 ∧ 0 < s.A then
      s.A * RHO_STEEL / 1000000 +
        (if s.has_cap ∧ 0 < s.cap_A then s.cap_A * RHO_STEEL / 1000000 else 0)
    else s.mass
  { s with rx := rx', ry := ry', Zx := Zx', J := J', Cw := Cw', rts := rts', mass := mass' }

/-- `Sect.calc_props` (source lines 555-560): dispatch on the section kind,
then run the kind-specific derivation followed by the common finishing step. -/
def calc_props (ops : RealOps) (s : Sect) : Sect :=
  if s.sec_type = "built_up" then
    calc_common_props ops (bu_core (bu_set_defaults s))
  else
    calc_common_props ops (hr_cap (hr_set_defaults s))

end Sect

/-- Embedding of the `LoadCaseResult` dataclass (source lines 711-721). -/
@[ext] structure LoadCaseResult where
  step_position : ℚ
  wheel_positions : List ℚ
  wheel_loads : List ℚ
  R_A : ℚ
  R_B : ℚ
  M_max : ℚ
  M_max_location : ℚ
  V_max : ℚ
  moments_at_wheels : List ℚ
deriving DecidableEq

/-- Embedding of the `CriticalResults` dataclass (source lines 724-756),
with the dataclass's zero/empty defaults. -/
@[ext] structure CriticalResults where
  M_max : ℚ := 0
  M_max_position : ℚ := 0
  M_max_location : ℚ := 0
  M_max_R_A : ℚ := 0
  M_max_R_B : ℚ := 0
  M_max_wheel_positions : List ℚ := []
  R_A_max : ℚ := 0
  R_A_max_position : ℚ := 0
  R_A_max_wheel_positions : List ℚ := []
  R_A_max_moment : ℚ := 0
  R_A_max_R_B : ℚ := 0
  R_B_max : ℚ := 0
  R_B_max_position : ℚ := 0
  R_B_max_wheel_positions : List ℚ := []
  R_B_max_moment : ℚ := 0
  R_B_max_R_A : ℚ := 0
  R_A_min : ℚ := 0
  R_B_min : ℚ := 0
  V_max : ℚ := 0
  all_results : List LoadCaseResult := []
deriving DecidableEq

/-- The zero-valued `CriticalResults()` the source returns for an empty
wheel sequence. -/
def CriticalResults.empty : CriticalResults := {}

/-- Index of the first occurrence of the maximum of `x :: xs`, Python
`np.argmax` / `max(range(n), key=...)` semantics (auxiliary recursion). -/
def argmaxAux (xs : List ℚ) (i bi : ℕ) (bv : ℚ) : ℕ :=
  match xs with
  | [] => bi
  | x :: rest => if bv < x then argmaxAux rest (i + 1) i x else argmaxAux rest (i + 1) bi bv

/-- First index achieving the maximum of a list (0 on the empty list),
matching `np.argmax` and Python's `max(..., key=...)` tie-breaking. -/
def argmaxIdx : List ℚ → ℕ
  | [] => 0
  | x :: xs => argmaxAux xs 1 0 x

/-- Index of the first occurrence of the minimum (auxiliary recursion). -/
def argminAux (xs : List ℚ) (i bi : ℕ) (bv : ℚ) : ℕ :=
  match xs with
  | [] => bi
  | x :: rest => if x < bv then argminAux rest (i + 1) i x else argminAux rest (i + 1) bi bv

/-- First index achieving the minimum of a list (0 on the empty list),
matching Python's `min(..., key=...)` tie-breaking. -/
def argminIdx : List ℚ → ℕ
  | [] => 0
  | x :: xs => argminAux xs 1 0 x

/-- `get_crane_group_geometry` (source lines 764-797): pack the active cranes
at minimum clearance (adjoining end buffers only), each wheel carrying that
crane's impacted maximum wheel load; returns relative positions, loads, and
total occupied length.  The fold state is (accumulated positions, accumulated
loads, current start offset). -/
def get_crane_group_geometry (cranes : List CraneData) : List ℚ × List ℚ × ℚ :=
  let rec go : List CraneData → ℚ → List ℚ × List ℚ
    | [], _ => ([], [])
    | crane :: rest, current_pos =>
      let Pv := crane.get_wheel_load_with_impact
      let crane_wheel_positions := crane.get_wheel_positions_relative
      let here := crane_wheel_positions.map (fun w => current_pos + w)
      let loads := crane_wheel_positions.map (fun _ => Pv)
      let next_pos :=
        match rest with
        | [] => current_pos
        | next :: _ =>
          current_pos + crane.get_total_wheel_base + (crane.buffer_right + next.buffer_left)
      let (ps, ls) := go rest next_pos
      (here ++ ps, loads ++ ls)
  let (rel_positions, wheel_loads) := go cranes 0
  let total_length :=
    if rel_positions ≠ [] then rel_positions.getLastD 0 - rel_positions.headD 0 else 0
  (rel_positions, wheel_loads, total_length)

/-- The bending moment `M(x) = R_A·x − Σ_{xⱼ<x} Pⱼ·(x−xⱼ)` evaluated by the
inner loops of `analyze_single_position`. -/
def momentAt (R_A : ℚ) (pairs : List (ℚ × ℚ)) (x : ℚ) : ℚ :=
  R_A * x - ((pairs.filter (fun q => q.1 < x)).map (fun q => q.2 * (x - q.1))).sum

/-- `analyze_single_position` (source lines 800-843): reactions by
influence-line superposition and the maximum of the candidate moments at all
wheel stations plus midspan (first-occurrence argmax, as `np.argmax`). -/
def analyze_single_position (L first_wheel_pos : ℚ) (rel_positions wheel_loads : List ℚ) :
    LoadCaseResult :=
  let abs_positions := rel_positions.map (fun rel => first_wheel_pos + rel)
  let pz := wheel_loads.zip abs_positions
  let R_A := (pz.map (fun q => q.1 * (L - q.2) / L)).sum
  let R_B := (pz.map (fun q => q.1 * q.2 / L)).sum
  let xs := abs_positions.zip wheel_loads
  let moments_at_wheels := abs_positions.map (momentAt R_A xs)
  let M_mid := momentAt R_A xs (L / 2)
  let all_moments := moments_at_wheels ++ [M_mid]
  let all_locations := abs_positions ++ [L / 2]
  let max_idx := argmaxIdx all_moments
  { step_position := first_wheel_pos
    wheel_positions := abs_positions
    wheel_loads := wheel_loads
    R_A := R_A
    R_B := R_B
    M_max := all_moments.getD max_idx 0
    M_max_location := all_locations.getD max_idx 0
    V_max := max R_A R_B
    moments_at_wheels := moments_at_wheels }

/-- The inclusive stepping positions of the `while current_pos <= end_pos +
0.001` loop (source lines 876-880) for a positive step: `start + k·step` for
`k = 0 … ⌊(end + 0.001 − start)/step⌋`. -/
def stepPositions (start_pos end_pos step_size : ℚ) : List ℚ :=
  (List.range ((⌊(end_pos + 0.001 - start_pos) / step_size⌋).toNat + 1)).map
    (fun k : ℕ => start_pos + (k : ℚ) * step_size)

/-- `run_moving_load_analysis` (source lines 846-920).  `none` models the two
ways the source fails to produce a value once the wheel sequence is nonempty:
a nonpositive step size (the while loop never terminates) and a zero span
(`analyze_single_position` divides by `L`).  An empty wheel sequence returns
the zero-valued `CriticalResults` before either can occur. -/
def run_moving_load_analysis (beam_span : ℚ) (cranes : List CraneData)
    (step_size : ℚ := 0.5) (num_cranes_on_beam : Option ℕ := none) :
    Option CriticalResults :=
  let L := beam_span
  let n := num_cranes_on_beam.getD cranes.length
  let active_cranes := cranes.take n
  let geo := get_crane_group_geometry active_cranes
  let rel_positions := geo.1
  let wheel_loads := geo.2.1
  let group_length := geo.2.2
  if rel_positions = [] then some CriticalResults.empty
  else if step_size ≤ 0 then none
  else if L = 0 then none
  else
    let buffer_left := (active_cranes.headD default).buffer_left
    let buffer_right := (active_cranes.getLastD default).buffer_right
    let start_pos := buffer_left
    let end_pos0 := L - buffer_right - group_length
    let end_pos := if end_pos0 < start_pos then start_pos else end_pos0
    let all_results := (stepPositions start_pos end_pos step_size).map
      (fun p => analyze_single_position L p rel_positions wheel_loads)
    if all_results = [] then some CriticalResults.empty
    else
      let idx_M := argmaxIdx (all_results.map (·.M_max))
      let caseM := all_results.getD idx_M (analyze_single_position L 0 [] [])
      let idx_RA := argmaxIdx (all_results.map (·.R_A))
      let caseRA := all_results.getD idx_RA (analyze_single_position L 0 [] [])
      let idx_RB := argmaxIdx (all_results.map (·.R_B))
      let caseRB := all_results.getD idx_RB (analyze_single_position L 0 [] [])
      let idx_RA_min := argminIdx (all_results.map (·.R_A))
      let idx_RB_min := argminIdx (all_results.map (·.R_B))
      some {
        M_max := caseM.M_max
        M_max_position := caseM.step_position
        M_max_location := caseM.M_max_location
        M_max_R_A := caseM.R_A
        M_max_R_B := caseM.R_B
        M_max_wheel_positions := caseM.wheel_positions
        R_A_max := caseRA.R_A
        R_A_max_position := caseRA.step_position
        R_A_max_wheel_positions := caseRA.wheel_positions
        R_A_max_moment := caseRA.M_max
        R_A_max_R_B := caseRA.R_B
        R_B_max := caseRB.R_B
        R_B_max_position := caseRB.step_position
        R_B_max_wheel_positions := caseRB.wheel_positions
        R_B_max_moment := caseRB.M_max
        R_B_max_R_A := caseRB.R_A
        V_max := max caseRA.R_A caseRB.R_B
        R_A_min := (all_results.getD idx_RA_min (analyze_single_position L 0 [] [])).R_A
        R_B_min := (all_results.getD idx_RB_min (analyze_single_position L 0 [] [])).R_B
        all_results := all_results }

/-- Result dictionary of `check_compactness` (source lines 950-982). -/
structure CompactnessResult where
  lambda_f : ℚ
  lambda_pf : ℚ
  lambda_rf : ℚ
  flange_class : String
  lambda_w : ℚ
  lambda_pw : ℚ
  lambda_rw : ℚ
  web_class : String
  compact : Bool
deriving DecidableEq

/-- `check_compactness` (source lines 950-982): flange and web slenderness
against compact/noncompact thresholds scaled by `√(E/Fy)`. -/
def check_compactness (ops : RealOps) (sec : Sect) (Fy : ℚ) : CompactnessResult :=
  let bf := if 0 < sec.bf_top then max sec.bf_top sec.bf_bot else sec.bf
  let tf := if 0 < sec.tf_top then min sec.tf_top sec.tf_bot else sec.tf
  let hw := if 0 < sec.hw then sec.hw else sec.d - 2 * sec.tf
  let lambda_f := if 0 < tf then bf / (2 * tf) else 999
  let lambda_pf := 0.38 * ops.sqrt (E_STEEL / Fy)
  let lambda_rf := 1.0 * ops.sqrt (E_STEEL / Fy)
  let flange_class :=
    if lambda_f ≤ lambda_pf then "Compact"
    else if lambda_f ≤ lambda_rf then "Noncompact"
    else "Slender"
  let lambda_w := if 0 < sec.tw then hw / sec.tw else 999
  let lambda_pw := 3.76 * ops.sqrt (E_STEEL / Fy)
  let lambda_rw := 5.70 * ops.sqrt (E_STEEL / Fy)
  let web_class :=
    if lambda_w ≤ lambda_pw then "Compact"
    else if lambda_w ≤ lambda_rw then "Noncompact"
    else "Slender"
  { lambda_f := lambda_f, lambda_pf := lambda_pf, lambda_rf := lambda_rf,
    flange_class := flange_class, lambda_w := lambda_w, lambda_pw := lambda_pw,
    lambda_rw := lambda_rw, web_class := web_class,
    compact := flange_class = "Compact" ∧ web_class = "Compact" }

/-- `calc_Lp_Lr` (source lines 985-1000). -/
def calc_Lp_Lr (ops : RealOps) (sec : Sect) (Fy : ℚ) : ℚ × ℚ :=
  let ry := if 0 < sec.ry then sec.ry else if 0 < sec.A then ops.sqrt (sec.Iy / sec.A) else 1
  let Lp := 1.76 * ry * ops.sqrt (E_STEEL / Fy)
  let ho := if 0 < sec.ho then sec.ho else sec.d - sec.tf
  let rts := if 0 < sec.rts then sec.rts else sec.ry
  let c : ℚ := 1
  if 0 < sec.Sx ∧ 0 < ho then
    let term1 := sec.J * c / (sec.Sx * ho)
    let term2 := ops.sqrt (term1 ^ 2 + 6.76 * (0.7 * Fy / E_STEEL) ^ 2)
    let Lr := 1.95 * rts * (E_STEEL / (0.7 * Fy)) * ops.sqrt (term1 + term2)
    (Lp, Lr)
  else
    (Lp, Lp * 3)

/-- Result dictionary of `calc_flexural_strength` (source lines 1049-1050). -/
structure FlexResult where
  Mp : ℚ
  My : ℚ
  Lp : ℚ
  Lr : ℚ
  Lb : ℚ
  Cb : ℚ
  Mn : ℚ
  Mn_allow : ℚ
  limit_state : String
deriving DecidableEq

/-- `calc_flexural_strength` (source lines 1003-1050): three lateral-torsional
regimes selected by `Lb` against `Lp`/`Lr`, then a flange-local-buckling
reduction for a noncompact flange and an `Rpg` web factor for a slender web.
The slender-web branch appends the source's formatted `Rpg` suffix via
`ops.fmtRpg`. -/
def calc_flexural_strength (ops : RealOps) (sec : Sect) (Fy Lb : ℚ)
    (cmp : CompactnessResult) : FlexResult :=
  let Lp := (calc_Lp_Lr ops sec Fy).1
  let Lr := (calc_Lp_Lr ops sec Fy).2
  let Mp := if 0 < sec.Zx then Fy * sec.Zx / 1000000 else Fy * sec.Sx * 1.12 / 1000000
  let My := Fy * sec.Sx / 1000000
  let Cb : ℚ := 1
  let Fcr :=
    let ho := if 0 < sec.ho then sec.ho else sec.d - sec.tf
    let rts := if 0 < sec.rts then sec.rts else sec.ry
    let c : ℚ := 1
    if 0 < sec.Sx ∧ 0 < ho then
      let term := sec.J * c / (sec.Sx * ho)
      (Cb * ops.pi ^ 2 * E_STEEL / (Lb / rts) ^ 2) *
        ops.sqrt (1 + 0.078 * term * (Lb / rts) ^ 2)
    else 0.7 * Fy
  let Mn₀ :=
    if Lb ≤ Lp then Mp
    else if Lb ≤ Lr then min (Cb * (Mp - (Mp - 0.7 * My) * (Lb - Lp) / (Lr - Lp))) Mp
    else min (Fcr * sec.Sx / 1000000) Mp
  let ls₀ :=
    if Lb ≤ Lp then "Yielding (Lb ≤ Lp)"
    else if Lb ≤ Lr then "Inelastic LTB"
    else "Elastic LTB"
  let Mn_flb := Mp - (Mp - 0.7 * My) * (cmp.lambda_f - cmp.lambda_pf) /
    (cmp.lambda_rf - cmp.lambda_pf)
  let flbGoverns := cmp.flange_class = "Noncompact" ∧ Mn_flb < Mn₀
  let Mn₁ := if flbGoverns then Mn_flb else Mn₀
  let ls₁ := if flbGoverns then "Flange Local Buckling" else ls₀
  let Rpg :=
    let bf := if 0 < sec.bf_top then max sec.bf_top sec.bf_bot else sec.bf
    let tf := if 0 < sec.tf_top then max sec.tf_top sec.tf_bot else sec.tf
    let aw := sec.hw * sec.tw / (bf * tf)
    let Rpg0 := 1 - aw / (1200 + 300 * aw) * (sec.hw / sec.tw - 5.7 * ops.sqrt (E_STEEL / Fy))
    min 1 (max Rpg0 0.5)
  let Mn₂ := if cmp.web_class = "Slender" then Mn₁ * Rpg else Mn₁
  let ls₂ := if cmp.web_class = "Slender" then ls₁ ++ ops.fmtRpg Rpg else ls₁
  { Mp := Mp, My := My, Lp := Lp, Lr := Lr, Lb := Lb, Cb := Cb,
    Mn := Mn₂, Mn_allow := Mn₂ / OMEGA_FLEX, limit_state := ls₂ }

/-- Result dictionary of `calc_shear_strength` (source lines 1091-1092). -/
structure ShearResult where
  Aw : ℚ
  h_tw : ℚ
  kv : ℚ
  Cv1 : ℚ
  Vn : ℚ
  Vn_allow : ℚ
  limit_state : String
deriving DecidableEq

/-- `calc_shear_strength` (source lines 1053-1092).  `none` models the source
raising: `Fy ≤ 0` makes `math.sqrt(kv·E/Fy)` fail (division by zero or a
negative radicand), and entering the tension-field block with a zero web
height divides by zero at `a_h = stiff_spa / hw`. -/
def calc_shear_strength (ops : RealOps) (sec : Sect) (Fy : ℚ)
    (has_stiff : Bool := false) (stiff_spa : ℚ := 0) (use_tfa : Bool := false) :
    Option ShearResult :=
  let hw := if 0 < sec.hw then sec.hw else sec.d - 2 * sec.tf
  let Aw := hw * sec.tw
  let h_tw := if 0 < sec.tw then hw / sec.tw else 999
  let kv :=
    if has_stiff ∧ 0 < stiff_spa ∧ 0 < hw then
      let a_h := stiff_spa / hw
      if a_h ≤ 3 then 5 + 5 / a_h ^ 2 else 5.34
    else (5.34 : ℚ)
  if Fy ≤ 0 then none
  else
    let limit1 := 1.10 * ops.sqrt (kv * E_STEEL / Fy)
    let limit2 := 1.37 * ops.sqrt (kv * E_STEEL / Fy)
    let Cv1 :=
      if h_tw ≤ limit1 then (1 : ℚ)
      else if h_tw ≤ limit2 then limit1 / h_tw
      else 1.51 * kv * E_STEEL / (h_tw ^ 2 * Fy)
    let ls₀ :=
      if h_tw ≤ limit1 then "Shear Yielding"
      else if h_tw ≤ limit2 then "Inelastic Buckling"
      else "Elastic Buckling"
    let Vn := 0.6 * Fy * Aw * Cv1 / 1000
    if use_tfa ∧ has_stiff ∧ 0 < stiff_spa ∧ Cv1 < 1 then
      if hw = 0 then none
      else
        let a_h := stiff_spa / hw
        if 0.5 ≤ a_h ∧ a_h ≤ 3 then
          let Cv2 := if limit1 < h_tw then limit1 / h_tw else 1
          let Vn_tfa := 0.6 * Fy * Aw * (Cv2 + (1 - Cv2) / (1.15 * ops.sqrt (1 + a_h ^ 2))) / 1000
          if Vn < Vn_tfa then
            some { Aw := Aw, h_tw := h_tw, kv := kv, Cv1 := Cv1, Vn := Vn_tfa,
                   Vn_allow := Vn_tfa / OMEGA_SHEAR_TFA, limit_state := "Tension Field Action" }
          else
            some { Aw := Aw, h_tw := h_tw, kv := kv, Cv1 := Cv1, Vn := Vn,
                   Vn_allow := Vn / OMEGA_SHEAR, limit_state := ls₀ }
        else
          some { Aw := Aw, h_tw := h_tw, kv := kv, Cv1 := Cv1, Vn := Vn,
                 Vn_allow := Vn / OMEGA_SHEAR, limit_state := ls₀ }
    else
      some { Aw := Aw, h_tw := h_tw, kv := kv, Cv1 := Cv1, Vn := Vn,
             Vn_allow := Vn / OMEGA_SHEAR, limit_state := ls₀ }

/-- Result dictionary of `check_web_local_yielding` (source lines 1107-1108). -/
structure WLYResult where
  k : ℚ
  lb : ℚ
  Rn : ℚ
  Rn_allow : ℚ
  R_applied : ℚ
  ratio : ℚ
  status : String
deriving DecidableEq

/-- `check_web_local_yielding` (source lines 1095-1108): `2.5k` end-bearing /
`5k` interior coefficients; a nonpositive allowable capacity yields the
sentinel ratio 999 instead of a division.  No operation of this function can
raise, so it is total. -/
def check_web_local_yielding (sec : Sect) (Fy R lb : ℚ) (at_support : Bool := true) :
    WLYResult :=
  let k := if 0 < sec.r then sec.tf + sec.r else sec.tf * 1.5
  let Rn :=
    if at_support then Fy * sec.tw * (2.5 * k + lb) / 1000
    else Fy * sec.tw * (5 * k + lb) / 1000
  let Rn_allow := Rn / OMEGA_WLY
  let ratio := if 0 < Rn_allow then R / Rn_allow else 999
  { k := k, lb := lb, Rn := Rn, Rn_allow := Rn_allow, R_applied := R,
    ratio := ratio, status := if ratio ≤ 1 then "OK" else "NG" }

/-- Result dictionary of `check_web_crippling` (source lines 1129-1130). -/
structure CripplingResult where
  lb : ℚ
  Rn : ℚ
  Rn_allow : ℚ
  R_applied : ℚ
  ratio : ℚ
  status : String
deriving DecidableEq

/-- The governing flange thickness used by `check_web_crippling`. -/
def cripplingTf (sec : Sect) : ℚ :=
  if 0 < sec.tf_top then min sec.tf_top sec.tf_bot else sec.tf

/-- The end-bearing crippling capacity for `lb/d ≤ 0.2` (source lines
1117-1118), with coefficient `3·(lb/d)`; `(tw/tf)^1.5` is embedded as
`(tw/tf)·√(tw/tf)`. -/
def cripplingRnEnd1 (ops : RealOps) (sec : Sect) (Fy lb : ℚ) : ℚ :=
  let tf := cripplingTf sec
  0.40 * sec.tw ^ 2 * (1 + 3 * (lb / sec.d) * ((sec.tw / tf) * ops.sqrt (sec.tw / tf))) *
    ops.sqrt (E_STEEL * Fy * tf / sec.tw) / 1000

/-- The end-bearing crippling capacity for `lb/d > 0.2` (source lines
1120-1121), with coefficient `4·lb/d − 0.2`. -/
def cripplingRnEnd2 (ops : RealOps) (sec : Sect) (Fy lb : ℚ) : ℚ :=
  let tf := cripplingTf sec
  0.40 * sec.tw ^ 2 * (1 + (4 * lb / sec.d - 0.2) * ((sec.tw / tf) * ops.sqrt (sec.tw / tf))) *
    ops.sqrt (E_STEEL * Fy * tf / sec.tw) / 1000

/-- The interior crippling capacity (source lines 1123-1124). -/
def cripplingRnInterior (ops : RealOps) (sec : Sect) (Fy lb : ℚ) : ℚ :=
  let tf := cripplingTf sec
  0.80 * sec.tw ^ 2 * (1 + 3 * (lb / sec.d) * ((sec.tw / tf) * ops.sqrt (sec.tw / tf))) *
    ops.sqrt (E_STEEL * Fy * tf / sec.tw) / 1000

/-- `check_web_crippling` (source lines 1111-1130).  Unlike the other checks,
nothing guards its divisions: `none` models the source raising
`ZeroDivisionError` on a zero depth, flange thickness, or web thickness, or
`ValueError` when the radicand `E·Fy·tf/tw` is negative (an odd sign between
`tf` and `tw`, or a nonpositive `Fy`). -/
def check_web_crippling (ops : RealOps) (sec : Sect) (Fy R lb : ℚ)
    (at_support : Bool := true) : Option CripplingResult :=
  let tf := cripplingTf sec
  if sec.d = 0 ∨ tf = 0 ∨ sec.tw = 0 ∨ E_STEEL * Fy * tf / sec.tw < 0 then none
  else
    let Rn :=
      if at_support then
        if lb / sec.d ≤ 0.2 then cripplingRnEnd1 ops sec Fy lb
        else cripplingRnEnd2 ops sec Fy lb
      else cripplingRnInterior ops sec Fy lb
    let Rn_allow := Rn / OMEGA_WCR
    let ratio := if 0 < Rn_allow then R / Rn_allow else 999
    some { lb := lb, Rn := Rn, Rn_allow := Rn_allow, R_applied := R,
           ratio := ratio, status := if ratio ≤ 1 then "OK" else "NG" }

/-- The `FATIGUE_CATEGORIES` table (source lines 194-240): fatigue-life
constant `Cf` and threshold stress `FTH` per category letter. -/
def FATIGUE_CATEGORIES : String → Option (ℚ × ℚ)
  | "A" => some (250 * 10 ^ 8, 165)
  | "B" => some (120 * 10 ^ 8, 110)
  | "B\x27" => some (61 * 10 ^ 8, 83)
  | "C" => some (44 * 10 ^ 8, 69)
  | "C\x27" => some (44 * 10 ^ 8, 83)
  | "D" => some (22 * 10 ^ 8, 48)
  | "E" => some (11 * 10 ^ 8, 31)
  | "E\x27" => some (39 * 10 ^ 7, 18)
  | "F" => some (150 * 10 ^ 8, 55)
  | _ => none

/-- Result dictionary of `check_fatigue` (source lines 1144-1146). -/
structure FatigueResult where
  f_sr : ℚ
  F_sr : ℚ
  FTH : ℚ
  Cf : ℚ
  N_cycles : ℤ
  category : String
  ratio : ℚ
  status : String
deriving DecidableEq

/-- `check_fatigue` (source lines 1133-1146): a category missing from the
table falls back to category E via `dict.get`; the returned record still
echoes the caller's string.  `(Cf/N)^(1/3)` is embedded as `ops.cbrt`;
`none` models the source raising on a nonpositive cycle count (division by
zero, or a complex fractional power reaching `max`). -/
def check_fatigue (ops : RealOps) (sec : Sect) (M_range : ℚ) (N_cycles : ℤ)
    (category : String := "E") : Option FatigueResult :=
  let cat := (FATIGUE_CATEGORIES category).getD ((FATIGUE_CATEGORIES "E").getD (0, 0))
  let Cf := cat.1
  let FTH := cat.2
  let f_sr := if 0 < sec.Sx then M_range * 1000000 / sec.Sx else 0
  if N_cycles ≤ 0 then none
  else
    let F_sr := max (ops.cbrt (Cf / (N_cycles : ℚ))) FTH
    let ratio := if 0 < F_sr then f_sr / F_sr else 999
    some { f_sr := f_sr, F_sr := F_sr, FTH := FTH, Cf := Cf, N_cycles := N_cycles,
           category := category, ratio := ratio,
           status := if ratio ≤ 1 then "OK" else "NG" }

/-! ### Claim theorems -/

/-- A concrete interpretation of the irrational operations, used by witnesses
and counterexamples (the claims proved below hold for every `RealOps`, and
the concrete facts below are independent of the interpretation). -/
def ops0 : RealOps := { sqrt := fun _ => 0, cbrt := fun _ => 0, pi := 0, fmtRpg := fun _ => "" }

/-- C6: with direct-override input active and a positive direct maximum
wheel load, `calc_wheel_loads` returns the supplied maximum verbatim and the
supplied minimum verbatim, except that a zero (unspecified) minimum falls
back to 20% of the supplied maximum. -/
theorem C6_direct_override_wheel_loads (c : CraneData)
    (h1 : c.use_direct_input = true) (h2 : 0 < c.direct_max_wheel_load) :
    (c.calc_wheel_loads).1 = c.direct_max_wheel_load ∧
    (c.direct_min_wheel_load ≠ 0 → (c.calc_wheel_loads).2 = c.direct_min_wheel_load) ∧
    (c.direct_min_wheel_load = 0 →
      (c.calc_wheel_loads).2 = c.direct_max_wheel_load * 0.2) := by
  unfold CraneData.calc_wheel_loads
  rw [if_pos (by simp [h1, h2])]
  refine ⟨rfl, fun hmin => ?_, fun hmin => ?_⟩
  · simp [hmin]
  · simp [hmin]

/-- Witness for C6 at concrete inputs: a direct-input crane with max 120 and
unspecified minimum gets (120, 24); one with minimum 30 gets it verbatim. -/
theorem C6_direct_override_wheel_loads_witness :
    (CraneData.calc_wheel_loads
        { use_direct_input := true, direct_max_wheel_load := 120 }).1 = 120 ∧
    (CraneData.calc_wheel_loads
        { use_direct_input := true, direct_max_wheel_load := 120 }).2 = 120 * 0.2 := by
  have h := C6_direct_override_wheel_loads
    { use_direct_input := true, direct_max_wheel_load := 120 } rfl (by norm_num)
  exact ⟨h.1, h.2.2 rfl⟩

/-- C9: for a crane computed by statics (no direct override), the
max-case and min-case per-wheel loads satisfy the conservation identity
`num_wheels·(max + min) = g·(bridge + trolley + capacity)`, independent of
the hook approach and the bridge span. -/
theorem C9_wheel_load_conservation (c : CraneData)
    (h : c.use_direct_input = false) (hL : c.bridge_span ≠ 0)
    (hn : (c.num_wheels : ℚ) ≠ 0) :
    (c.num_wheels : ℚ) * ((c.calc_wheel_loads).1 + (c.calc_wheel_loads).2)
      = GRAVITY * (c.bridge_weight + c.trolley_weight + c.capacity_tonnes) := by
  unfold CraneData.calc_wheel_loads
  rw [if_neg (by simp [h])]
  field_simp
  ring

/-- Witness for C9: the default crane (10 t capacity, 5 t bridge, 0.72 t
trolley, two wheels) satisfies the conservation identity. -/
theorem C9_wheel_load_conservation_witness :
    (2 : ℚ) * ((CraneData.calc_wheel_loads {}).1 + (CraneData.calc_wheel_loads {}).2)
      = GRAVITY * (5 + 0.72 + 10) := by
  have h := C9_wheel_load_conservation {} rfl (by norm_num) (by norm_num)
  simpa using h

/-- C4 counterexample: two cranes identical except for the bridge self-weight
(5 t vs 0 t), both without direct override, get different longitudinal
forces — so `get_longitudinal_force` does depend on the bridge self-weight,
contrary to the claim. -/
theorem C4_counterexample :
    ({} : CraneData).use_direct_input = false ∧
    CraneData.get_longitudinal_force { ({} : CraneData) with bridge_weight := 0 }
      ≠ CraneData.get_longitudinal_force ({} : CraneData) := by
  constructor
  · rfl
  · unfold CraneData.get_longitudinal_force CraneData.calc_wheel_loads
    norm_num [GRAVITY]

/-- C4 amended: without direct override, `get_longitudinal_force` equals the
longitudinal factor times `num_wheels` times the *maximum wheel load*, i.e.
`impact_l · (P_bridge/2 + (P_lift+P_trolley)·(Lb−e)/Lb)` — it includes half
the bridge self-weight; the *lateral* load per wheel, in contrast, is derived
from the hoist+trolley load only and is independent of the bridge
self-weight. -/
theorem C4_amended_longitudinal_includes_bridge (c : CraneData)
    (h : c.use_direct_input = false) (hn : (c.num_wheels : ℚ) ≠ 0) :
    c.get_longitudinal_force
      = c.impact_l * (c.bridge_weight * GRAVITY / 2 +
          (c.capacity_tonnes + c.trolley_weight) * GRAVITY *
            (c.bridge_span - c.min_hook_approach) / c.bridge_span) ∧
    c.get_lateral_load_per_wheel
      = c.impact_h * (c.capacity_tonnes + c.trolley_weight) * GRAVITY /
          (2 * (c.num_wheels : ℚ)) ∧
    (∀ b : ℚ, CraneData.get_lateral_load_per_wheel { c with bridge_weight := b }
      = c.get_lateral_load_per_wheel) := by
  refine ⟨?_, ?_, ?_⟩
  · unfold CraneData.get_longitudinal_force CraneData.calc_wheel_loads
    rw [if_neg (by simp [h])]
    field_simp
    ring
  · unfold CraneData.get_lateral_load_per_wheel
    rw [if_neg (by simp [h])]
    ring
  · intro b
    unfold CraneData.get_lateral_load_per_wheel
    have h1 : ¬((({ c with bridge_weight := b } : CraneData)).use_direct_input
        ∧ 0 < ({ c with bridge_weight := b } : CraneData).direct_lateral_load) := by
      simp [h]
    rw [if_neg h1]

/-- Witness for C4 amended at the default crane. -/
theorem C4_amended_longitudinal_includes_bridge_witness :
    CraneData.get_longitudinal_force {}
      = 0.10 * ((5 : ℚ) * GRAVITY / 2 + (10 + 0.72) * GRAVITY * (15 - 1) / 15) ∧
    CraneData.get_lateral_load_per_wheel {}
      = 0.20 * ((10 : ℚ) + 0.72) * GRAVITY / (2 * 2) := by
  have h := C4_amended_longitudinal_includes_bridge {} rfl (by norm_num)
  exact ⟨h.1, by simpa using h.2.1⟩

/-- C10: a category string missing from the fatigue table silently falls back
to the constants of category E (`Cf = 11e8`, `FTH = 31`) for the allowable
stress range, while the returned record still echoes the caller's original
category string, and no error occurs (a positive cycle count given). -/
theorem C10_fatigue_unknown_category_fallback (ops : RealOps) (sec : Sect)
    (M : ℚ) (N : ℤ) (cat : String)
    (hcat : FATIGUE_CATEGORIES cat = none) (hN : 0 < N) :
    ∃ res, check_fatigue ops sec M N cat = some res ∧
      res.Cf = 11 * 10 ^ 8 ∧ res.FTH = 31 ∧
      res.F_sr = max (ops.cbrt (11 * 10 ^ 8 / (N : ℚ))) 31 ∧
      res.category = cat := by
  unfold check_fatigue
  rw [hcat, if_neg (by omega)]
  exact ⟨_, rfl, rfl, rfl, rfl, rfl⟩

/-- Witness for C10: the unknown category "K2" with one million cycles. -/
theorem C10_fatigue_unknown_category_fallback_witness :
    ∃ res, check_fatigue ops0 {} 5 1000000 "K2" = some res ∧
      res.Cf = 11 * 10 ^ 8 ∧ res.FTH = 31 ∧
      res.F_sr = max (ops0.cbrt (11 * 10 ^ 8 / (1000000 : ℚ))) 31 ∧
      res.category = "K2" :=
  C10_fatigue_unknown_category_fallback ops0 {} 5 1000000 "K2" (by decide) (by decide)

/-- C7: at an end bearing with `lb/d` exactly `0.2`, `check_web_crippling`
takes the non-strict `lb/d ≤ 0.2` branch and computes the capacity with the
`3·(lb/d)` coefficient formula (the `≤ 0.2` variant, not the `> 0.2` one),
whenever the inputs do not make the source raise. -/
theorem C7_crippling_boundary (ops : RealOps) (sec : Sect) (Fy R lb : ℚ)
    (hguard : ¬(sec.d = 0 ∨ cripplingTf sec = 0 ∨ sec.tw = 0 ∨
      E_STEEL * Fy * cripplingTf sec / sec.tw < 0))
    (hb : lb / sec.d = 0.2) :
    ∃ res, check_web_crippling ops sec Fy R lb true = some res ∧
      res.Rn = cripplingRnEnd1 ops sec Fy lb := by
  unfold check_web_crippling
  rw [if_neg hguard]
  refine ⟨_, rfl, ?_⟩
  show (if lb / sec.d ≤ 0.2 then cripplingRnEnd1 ops sec Fy lb
        else cripplingRnEnd2 ops sec Fy lb) = cripplingRnEnd1 ops sec Fy lb
  exact if_pos (le_of_eq hb)

/-- Witness for C7: a 100 mm deep section with a 20 mm bearing length,
`lb/d = 0.2` exactly. -/
theorem C7_crippling_boundary_witness :
    ∃ res, check_web_crippling ops0 { d := 100, tf := 10, tw := 5 } 250 10 20 true
        = some res ∧
      res.Rn = cripplingRnEnd1 ops0 { d := 100, tf := 10, tw := 5 } 250 20 :=
  C7_crippling_boundary ops0 { d := 100, tf := 10, tw := 5 } 250 10 20
    (by norm_num [cripplingTf, E_STEEL]) (by norm_num)

/-- C1: `analyze_single_position` computes the reactions by influence-line
superposition over the absolute wheel positions `xᵢ = firstWheel + relᵢ`:
`R_A = Σ Pᵢ·(L−xᵢ)/L` and `R_B = Σ Pᵢ·xᵢ/L`; consequently for a single
point load `P` placed at any position `a` on a span `L > 0`, the two
reactions sum exactly to `P`. -/
theorem C1_influence_line_reactions (L fp : ℚ) (rels loads : List ℚ) (hL : 0 < L) :
    (analyze_single_position L fp rels loads).R_A
        = ((loads.zip (rels.map (fun rel => fp + rel))).map
            (fun q => q.1 * (L - q.2) / L)).sum ∧
    (analyze_single_position L fp rels loads).R_B
        = ((loads.zip (rels.map (fun rel => fp + rel))).map
            (fun q => q.1 * q.2 / L)).sum ∧
    ∀ P a : ℚ, (analyze_single_position L a [0] [P]).R_A
        + (analyze_single_position L a [0] [P]).R_B = P := by
  refine ⟨rfl, rfl, fun P a => ?_⟩
  show P * (L - (a + 0)) / L + 0 + (P * (a + 0) / L + 0) = P
  field_simp
  ring

/-- Witness for C1: span 12, a single 50 kN load stepped to position 3. -/
theorem C1_influence_line_reactions_witness :
    (analyze_single_position 12 3 [0] [50]).R_A
        + (analyze_single_position 12 3 [0] [50]).R_B = 50 :=
  (C1_influence_line_reactions 12 3 [0] [50] (by norm_num)).2.2 50 3

/-- Every entry of the fatigue-category table has a positive threshold
stress `FTH`. -/
lemma FATIGUE_CATEGORIES_FTH_pos (cat : String) (p : ℚ × ℚ)
    (h : FATIGUE_CATEGORIES cat = some p) : 0 < p.2 := by
  unfold FATIGUE_CATEGORIES at h
  split at h <;> simp_all <;> norm_num [← h]

/-- The threshold stress actually used by `check_fatigue` (table entry, or
the category-E fallback) is positive for every category string. -/
lemma check_fatigue_FTH_pos (cat : String) :
    0 < ((FATIGUE_CATEGORIES cat).getD ((FATIGUE_CATEGORIES "E").getD (0, 0))).2 := by
  cases h : FATIGUE_CATEGORIES cat with
  | none => norm_num [FATIGUE_CATEGORIES]
  | some p => simpa using FATIGUE_CATEGORIES_FTH_pos cat p h

/-- C5 counterexample: `check_web_crippling` does *not* guard a zero flange
thickness — on a section with `tf = 0` (and positive depth and web
thickness) the source raises `ZeroDivisionError` at `(tw/tf)**1.5` instead
of returning a sentinel ratio, embedded here as `none`. -/
theorem C5_counterexample :
    ({ d := 100, tw := 5 } : Sect).tf = 0 ∧
    check_web_crippling ops0 { d := 100, tw := 5 } 250 10 50 true = none :=
  ⟨rfl, by norm_num [check_web_crippling, cripplingTf]⟩

/-- C5 amended: the guards are per-check, not uniform.
`check_web_local_yielding` returns normally with the sentinel ratio 999 (an
automatic fail) on a nonpositive web thickness; `calc_shear_strength`
returns normally with the sentinel slenderness 999; `check_fatigue` returns
normally on a nonpositive section modulus but with stress range 0 and ratio
0 — an automatic *pass*, not a fail; and `check_web_crippling` does not
guard at all: a zero governing flange thickness is an error (`none`). -/
theorem C5_amended_per_check_guards :
    (∀ (sec : Sect) (Fy R lb : ℚ) (ats : Bool),
        sec.tw ≤ 0 → 0 < Fy → 0 ≤ sec.tf → 0 ≤ sec.r → 0 ≤ lb →
        (check_web_local_yielding sec Fy R lb ats).ratio = 999 ∧
        (check_web_local_yielding sec Fy R lb ats).status = "NG") ∧
    (∀ (ops : RealOps) (sec : Sect) (Fy spa : ℚ) (hs : Bool),
        sec.tw ≤ 0 → 0 < Fy →
        ∃ res, calc_shear_strength ops sec Fy hs spa false = some res ∧
          res.h_tw = 999) ∧
    (∀ (ops : RealOps) (sec : Sect) (M : ℚ) (N : ℤ) (cat : String),
        sec.Sx ≤ 0 → 0 < N →
        ∃ res, check_fatigue ops sec M N cat = some res ∧
          res.f_sr = 0 ∧ res.ratio = 0 ∧ res.status = "OK") ∧
    (∀ (ops : RealOps) (Fy R lb : ℚ) (ats : Bool) (sec : Sect),
        cripplingTf sec = 0 →
        check_web_crippling ops sec Fy R lb ats = none) := by
  refine ⟨?_, ?_, ?_, ?_⟩
  · intro sec Fy R lb ats htw hFy htf hr hlb
    unfold check_web_local_yielding
    have hk : 0 ≤ (if 0 < sec.r then sec.tf + sec.r else sec.tf * 1.5) := by
      split_ifs <;> linarith
    set k := if 0 < sec.r then sec.tf + sec.r else sec.tf * 1.5 with hkdef
    have hRn : (if ats = true then Fy * sec.tw * (2.5 * k + lb) / 1000
        else Fy * sec.tw * (5 * k + lb) / 1000) ≤ 0 := by
      have h25 : 0 ≤ 2.5 * k + lb := by linarith
      have h5 : 0 ≤ 5 * k + lb := by linarith
      have hm : ∀ co : ℚ, 0 ≤ co → Fy * sec.tw * co ≤ 0 := fun co hco => by
        have : Fy * co ≥ 0 := mul_nonneg hFy.le hco
        nlinarith
      split_ifs
      · have := hm _ h25; linarith
      · have := hm _ h5; linarith
    have hallow : ¬(0 < (if ats = true then Fy * sec.tw * (2.5 * k + lb) / 1000
        else Fy * sec.tw * (5 * k + lb) / 1000) / OMEGA_WLY) := by
      rw [not_lt]
      have : (0:ℚ) < OMEGA_WLY := by norm_num [OMEGA_WLY]
      exact div_nonpos_iff.2 (Or.inr ⟨hRn, this.le⟩)
    constructor
    · show (if 0 < (if ats = true then Fy * sec.tw * (2.5 * k + lb) / 1000
          else Fy * sec.tw * (5 * k + lb) / 1000) / OMEGA_WLY
          then R / ((if ats = true then Fy * sec.tw * (2.5 * k + lb) / 1000
            else Fy * sec.tw * (5 * k + lb) / 1000) / OMEGA_WLY) else 999) = 999
      rw [if_neg hallow]
    · show (if (if 0 < (if ats = true then Fy * sec.tw * (2.5 * k + lb) / 1000
          else Fy * sec.tw * (5 * k + lb) / 1000) / OMEGA_WLY
          then R / ((if ats = true then Fy * sec.tw * (2.5 * k + lb) / 1000
            else Fy * sec.tw * (5 * k + lb) / 1000) / OMEGA_WLY) else 999) ≤ 1
          then "OK" else "NG") = "NG"
      rw [if_neg hallow, if_neg (by norm_num)]
  · intro ops sec Fy spa hs htw hFy
    unfold calc_shear_strength
    rw [if_neg (not_le.2 hFy)]
    refine ⟨_, rfl, ?_⟩
    show (if 0 < sec.tw then _ / sec.tw else 999) = 999
    rw [if_neg (not_lt.2 htw)]
  · intro ops sec M N cat hSx hN
    unfold check_fatigue
    rw [if_neg (by omega)]
    have hFsr : (0:ℚ) <
        max (ops.cbrt (((FATIGUE_CATEGORIES cat).getD
          ((FATIGUE_CATEGORIES "E").getD (0, 0))).1 / (N : ℚ)))
          ((FATIGUE_CATEGORIES cat).getD ((FATIGUE_CATEGORIES "E").getD (0, 0))).2 :=
      lt_of_lt_of_le (check_fatigue_FTH_pos cat) (le_max_right _ _)
    have hfsr : (if 0 < sec.Sx then M * 1000000 / sec.Sx else 0) = 0 :=
      if_neg (not_lt.2 hSx)
    refine ⟨_, rfl, hfsr, ?_, ?_⟩
    · show (if 0 < max (ops.cbrt _) _ then
          (if 0 < sec.Sx then M * 1000000 / sec.Sx else 0) / max (ops.cbrt _) _
          else 999) = 0
      rw [if_pos hFsr, hfsr, zero_div]
    · show (if (if 0 < max (ops.cbrt _) _ then
          (if 0 < sec.Sx then M * 1000000 / sec.Sx else 0) / max (ops.cbrt _) _
          else 999) ≤ 1 then "OK" else "NG") = "OK"
      rw [if_pos hFsr, hfsr, zero_div]
      norm_num
  · intro ops Fy R lb ats sec htf
    unfold check_web_crippling
    rw [if_pos (Or.inr (Or.inl htf))]

/-- Witness for C5 amended: the all-zero section exercises every part
(`tw = 0`, `Sx = 0`, `cripplingTf = 0`). -/
theorem C5_amended_per_check_guards_witness :
    (check_web_local_yielding {} 250 10 50 true).ratio = 999 ∧
    (∃ res, calc_shear_strength ops0 {} 250 false 0 false = some res ∧
      res.h_tw = 999) ∧
    (∃ res, check_fatigue ops0 {} 5 1000000 "E" = some res ∧
      res.f_sr = 0 ∧ res.ratio = 0 ∧ res.status = "OK") ∧
    check_web_crippling ops0 {} 250 10 50 true = none := by
  refine ⟨(C5_amended_per_check_guards.1 {} 250 10 50 true (by norm_num) (by norm_num)
      (by norm_num) (by norm_num) (by norm_num)).1,
    C5_amended_per_check_guards.2.1 ops0 {} 250 0 false (by norm_num) (by norm_num),
    C5_amended_per_check_guards.2.2.1 ops0 {} 5 1000000 "E" (by norm_num) (by norm_num),
    C5_amended_per_check_guards.2.2.2 ops0 250 10 50 true {} (by norm_num [cripplingTf])⟩

/-- A concrete compact, fully braced section used for C8: flange and web
classify as Compact under `ops0`, `Lb = 0 ≤ Lp`, and `Zx > 0`. -/
def sec8 : Sect := { d := 20, tf := 10, tw := 5, Zx := 100, Sx := 50 }

/-- C8 counterexample: for a compact-flange, compact-web, fully braced
section the nominal moment is the plastic moment `Fy·Zx` (consistent units),
but the reported limit state is the string "Yielding (Lb ≤ Lp)", not
"Yielding" as the claim states. -/
theorem C8_counterexample :
    (check_compactness ops0 sec8 250).flange_class = "Compact" ∧
    (check_compactness ops0 sec8 250).web_class = "Compact" ∧
    (0 : ℚ) ≤ (calc_Lp_Lr ops0 sec8 250).1 ∧
    (calc_flexural_strength ops0 sec8 250 0 (check_compactness ops0 sec8 250)).Mn
      = 250 * (100 : ℚ) / 1000000 ∧
    (calc_flexural_strength ops0 sec8 250 0 (check_compactness ops0 sec8 250)).limit_state
      ≠ "Yielding" := by
  refine ⟨?_, ?_, ?_, ?_, ?_⟩
  · norm_num [check_compactness, sec8, ops0, E_STEEL]
  · norm_num [check_compactness, sec8, ops0, E_STEEL]
  · norm_num [calc_Lp_Lr, sec8, ops0, E_STEEL]
  · norm_num [check_compactness, calc_Lp_Lr, calc_flexural_strength, sec8, ops0, E_STEEL]
  · have : (calc_flexural_strength ops0 sec8 250 0
        (check_compactness ops0 sec8 250)).limit_state = "Yielding (Lb ≤ Lp)" := by
      norm_num [check_compactness, calc_Lp_Lr, calc_flexural_strength, sec8, ops0, E_STEEL]
    rw [this]
    decide

/-- C8 amended: for a compact-flange, compact-web section with `Lb ≤ Lp`
(and a set plastic modulus), `calc_flexural_strength` reports the nominal
moment `Mn = Fy·Zx` (in the source's kN·m units, i.e. divided by `10⁶`) and
the limit-state label "Yielding (Lb ≤ Lp)" — the label carries the
qualifying suffix, it is not the bare string "Yielding". -/
theorem C8_amended_compact_braced_yielding (ops : RealOps) (sec : Sect)
    (Fy Lb : ℚ) (cmp : CompactnessResult)
    (hf : cmp.flange_class = "Compact") (hw : cmp.web_class = "Compact")
    (hLb : Lb ≤ (calc_Lp_Lr ops sec Fy).1) (hZx : 0 < sec.Zx) :
    (calc_flexural_strength ops sec Fy Lb cmp).Mn = Fy * sec.Zx / 1000000 ∧
    (calc_flexural_strength ops sec Fy Lb cmp).limit_state = "Yielding (Lb ≤ Lp)" := by
  have hws : ¬(cmp.web_class = "Slender") := by rw [hw]; decide
  have hfn : ∀ P : Prop, ¬(cmp.flange_class = "Noncompact" ∧ P) := fun P h => by
    rw [hf] at h
    exact absurd h.1 (by decide)
  simp only [calc_flexural_strength]
  constructor
  · rw [if_neg hws, if_neg (hfn _), if_pos hLb, if_pos hZx]
  · rw [if_neg hws, if_neg (hfn _), if_pos hLb]

/-- Witness for C8 amended at the concrete compact braced section `sec8`. -/
theorem C8_amended_compact_braced_yielding_witness :
    (calc_flexural_strength ops0 sec8 250 0 (check_compactness ops0 sec8 250)).Mn
      = 250 * sec8.Zx / 1000000 ∧
    (calc_flexural_strength ops0 sec8 250 0 (check_compactness ops0 sec8 250)).limit_state
      = "Yielding (Lb ≤ Lp)" :=
  C8_amended_compact_braced_yielding ops0 sec8 250 0 (check_compactness ops0 sec8 250)
    (by norm_num [check_compactness, sec8, ops0, E_STEEL])
    (by norm_num [check_compactness, sec8, ops0, E_STEEL])
    (by norm_num [calc_Lp_Lr, sec8, ops0, E_STEEL])
    (by norm_num [sec8])

/-- With a step larger than the `0.001` inclusive-bound tolerance, a clamped
(zero-length) travel range produces exactly one stepping position: the start. -/
lemma stepPositions_single (s step : ℚ) (h : 1/1000 < step) :
    stepPositions s s step = [s] := by
  unfold stepPositions
  have h0 : (0:ℚ) < step := lt_trans (by norm_num) h
  have he : s + 0.001 - s = 0.001 := by ring
  rw [he]
  have hfl : ⌊(0.001 : ℚ) / step⌋ = 0 := by
    rw [Int.floor_eq_zero_iff]
    constructor
    · positivity
    · rw [div_lt_one h0]
      calc (0.001:ℚ) = 1/1000 := by norm_num
        _ < step := h
  rw [hfl]
  have hr : List.range ((0:ℤ).toNat + 1) = [0] := rfl
  rw [hr, List.map_cons, List.map_nil]
  norm_num

/-- C2: (a) an empty active-crane list (hence an empty packed wheel
sequence) makes `run_moving_load_analysis` return the zero-valued
`CriticalResults` — every numeric field `0`, every list empty — without
error; (b) an infeasible (negative-length) travel range is clamped to
`end = start` and, for any step above the `0.001` tolerance, the analysis
returns a non-error result whose case list is the single analysis at the
clamped start position. -/
theorem C2_degenerate_geometry :
    (∀ (L : ℚ) (cranes : List CraneData) (step : ℚ) (n : Option ℕ),
      cranes.take (n.getD cranes.length) = [] →
      run_moving_load_analysis L cranes step n = some CriticalResults.empty ∧
      CriticalResults.empty.M_max = 0 ∧ CriticalResults.empty.M_max_position = 0 ∧
      CriticalResults.empty.M_max_location = 0 ∧ CriticalResults.empty.M_max_R_A = 0 ∧
      CriticalResults.empty.M_max_R_B = 0 ∧
      CriticalResults.empty.M_max_wheel_positions = [] ∧
      CriticalResults.empty.R_A_max = 0 ∧ CriticalResults.empty.R_A_max_position = 0 ∧
      CriticalResults.empty.R_A_max_wheel_positions = [] ∧
      CriticalResults.empty.R_A_max_moment = 0 ∧ CriticalResults.empty.R_A_max_R_B = 0 ∧
      CriticalResults.empty.R_B_max = 0 ∧ CriticalResults.empty.R_B_max_position = 0 ∧
      CriticalResults.empty.R_B_max_wheel_positions = [] ∧
      CriticalResults.empty.R_B_max_moment = 0 ∧ CriticalResults.empty.R_B_max_R_A = 0 ∧
      CriticalResults.empty.R_A_min = 0 ∧ CriticalResults.empty.R_B_min = 0 ∧
      CriticalResults.empty.V_max = 0 ∧ CriticalResults.empty.all_results = []) ∧
    (∀ (L : ℚ) (cranes : List CraneData) (step : ℚ) (n : Option ℕ),
      (get_crane_group_geometry (cranes.take (n.getD cranes.length))).1 ≠ [] →
      L ≠ 0 → 1/1000 < step →
      L - ((cranes.take (n.getD cranes.length)).getLastD default).buffer_right -
          (get_crane_group_geometry (cranes.take (n.getD cranes.length))).2.2
        < ((cranes.take (n.getD cranes.length)).headD default).buffer_left →
      ∃ res, run_moving_load_analysis L cranes step n = some res ∧
        res.all_results = [analyze_single_position L
          ((cranes.take (n.getD cranes.length)).headD default).buffer_left
          (get_crane_group_geometry (cranes.take (n.getD cranes.length))).1
          (get_crane_group_geometry (cranes.take (n.getD cranes.length))).2.1]) := by
  constructor
  · intro L cranes step n h
    refine ⟨?_, rfl, rfl, rfl, rfl, rfl, rfl, rfl, rfl, rfl, rfl, rfl, rfl, rfl, rfl,
      rfl, rfl, rfl, rfl, rfl, rfl⟩
    simp only [run_moving_load_analysis]
    rw [h]
    rfl
  · intro L cranes step n hrel hL hstep hend
    have hstep' : ¬(step ≤ 0) := not_le.2 (lt_trans (by norm_num) hstep)
    simp only [run_moving_load_analysis]
    rw [if_neg hrel, if_neg hstep', if_neg hL, if_pos hend,
      stepPositions_single _ _ hstep]
    rw [List.map_cons, List.map_nil]
    rw [if_neg (by exact List.cons_ne_nil _ _)]
    exact ⟨_, rfl, rfl⟩

/-- Witness for C2: (a) no cranes at all on a 12 m span; (b) one default
crane (wheel base 2.2 m, buffers 0.29 m) on a 1 m span, whose travel range
is negative and clamps to the single start position 0.29. -/
theorem C2_degenerate_geometry_witness :
    run_moving_load_analysis 12 [] 0.5 none = some CriticalResults.empty ∧
    (∃ res, run_moving_load_analysis 1 [{}] 0.5 none = some res ∧
      res.all_results = [analyze_single_position 1
        ((([{}] : List CraneData).take ((none : Option ℕ).getD ([{}] : List CraneData).length)).headD default).buffer_left
        (get_crane_group_geometry (([{}] : List CraneData).take ((none : Option ℕ).getD ([{}] : List CraneData).length))).1
        (get_crane_group_geometry
          (([{}] : List CraneData).take ((none : Option ℕ).getD ([{}] : List CraneData).length))).2.1]) := by
  constructor
  · exact (C2_degenerate_geometry.1 12 [] 0.5 none rfl).1
  · refine C2_degenerate_geometry.2 1 [{}] 0.5 none ?_ (by norm_num) (by norm_num) ?_
    · have h : (get_crane_group_geometry
          (([{}] : List CraneData).take ((none : Option ℕ).getD ([{}] : List CraneData).length))).1 = [0, 2.2] := by
        norm_num [get_crane_group_geometry, get_crane_group_geometry.go,
          CraneData.get_wheel_positions_relative]
      rw [h]
      exact List.cons_ne_nil _ _
    · have h : (get_crane_group_geometry
          (([{}] : List CraneData).take ((none : Option ℕ).getD ([{}] : List CraneData).length))).2.2 = 2.2 := by
        norm_num [get_crane_group_geometry, get_crane_group_geometry.go,
          CraneData.get_wheel_positions_relative, List.cons_ne_nil]
      rw [h]
      norm_num

/-! ### Section-property idempotence infrastructure (claim C3) -/

namespace Sect
lemma bu_set_defaults_name (x : Sect) : (bu_set_defaults x).name = x.name := by
  simp only [bu_set_defaults]; split_ifs <;> rfl
lemma bu_set_defaults_sec_type (x : Sect) : (bu_set_defaults x).sec_type = x.sec_type := by
  simp only [bu_set_defaults]; split_ifs <;> rfl
lemma bu_set_defaults_d (x : Sect) : (bu_set_defaults x).d = x.d := by
  simp only [bu_set_defaults]; split_ifs <;> rfl
lemma bu_set_defaults_bf (x : Sect) : (bu_set_defaults x).bf = x.bf := by
  simp only [bu_set_defaults]; split_ifs <;> rfl
lemma bu_set_defaults_tf (x : Sect) : (bu_set_defaults x).tf = x.tf := by
  simp only [bu_set_defaults]; split_ifs <;> rfl
lemma bu_set_defaults_tw (x : Sect) : (bu_set_defaults x).tw = x.tw := by
  simp only [bu_set_defaults]; split_ifs <;> rfl
lemma bu_set_defaults_r (x : Sect) : (bu_set_defaults x).r = x.r := by
  simp only [bu_set_defaults]; split_ifs <;> rfl
lemma bu_set_defaults_has_cap (x : Sect) : (bu_set_defaults x).has_cap = x.has_cap := by
  simp only [bu_set_defaults]; split_ifs <;> rfl
lemma bu_set_defaults_cap_name (x : Sect) : (bu_set_defaults x).cap_name = x.cap_name := by
  simp only [bu_set_defaults]; split_ifs <;> rfl
lemma bu_set_defaults_cap_A (x : Sect) : (bu_set_defaults x).cap_A = x.cap_A := by
  simp only [bu_set_defaults]; split_ifs <;> rfl
lemma bu_set_defaults_cap_Ix (x : Sect) : (bu_set_defaults x).cap_Ix = x.cap_Ix := by
  simp only [bu_set_defaults]; split_ifs <;> rfl
lemma bu_set_defaults_cap_Iy (x : Sect) : (bu_set_defaults x).cap_Iy = x.cap_Iy := by
  simp only [bu_set_defaults]; split_ifs <;> rfl
lemma bu_set_defaults_cap_d (x : Sect) : (bu_set_defaults x).cap_d = x.cap_d := by
  simp only [bu_set_defaults]; split_ifs <;> rfl
lemma bu_set_defaults_cap_cy (x : Sect) : (bu_set_defaults x).cap_cy = x.cap_cy := by
  simp only [bu_set_defaults]; split_ifs <;> rfl
lemma bu_set_defaults_A (x : Sect) : (bu_set_defaults x).A = x.A := by
  simp only [bu_set_defaults]; split_ifs <;> rfl
lemma bu_set_defaults_Ix (x : Sect) : (bu_set_defaults x).Ix = x.Ix := by
  simp only [bu_set_defaults]; split_ifs <;> rfl
lemma bu_set_defaults_Iy (x : Sect) : (bu_set_defaults x).Iy = x.Iy := by
  simp only [bu_set_defaults]; split_ifs <;> rfl
lemma bu_set_defaults_Sx (x : Sect) : (bu_set_defaults x).Sx = x.Sx := by
  simp only [bu_set_defaults]; split_ifs <;> rfl
lemma bu_set_defaults_Sy (x : Sect) : (bu_set_defaults x).Sy = x.Sy := by
  simp only [bu_set_defaults]; split_ifs <;> rfl
lemma bu_set_defaults_Zx (x : Sect) : (bu_set_defaults x).Zx = x.Zx := by
  simp only [bu_set_defaults]; split_ifs <;> rfl
lemma bu_set_defaults_rx (x : Sect) : (bu_set_defaults x).rx = x.rx := by
  simp only [bu_set_defaults]; split_ifs <;> rfl
lemma bu_set_defaults_ry (x : Sect) : (bu_set_defaults x).ry = x.ry := by
  simp only [bu_set_defaults]; split_ifs <;> rfl
lemma bu_set_defaults_rts (x : Sect) : (bu_set_defaults x).rts = x.rts := by
  simp only [bu_set_defaults]; split_ifs <;> rfl
lemma bu_set_defaults_J (x : Sect) : (bu_set_defaults x).J = x.J := by
  simp only [bu_set_defaults]; split_ifs <;> rfl
lemma bu_set_defaults_Cw (x : Sect) : (bu_set_defaults x).Cw = x.Cw := by
  simp only [bu_set_defaults]; split_ifs <;> rfl
lemma bu_set_defaults_ho (x : Sect) : (bu_set_defaults x).ho = x.ho := by
  simp only [bu_set_defaults]; split_ifs <;> rfl
lemma bu_set_defaults_y_bar (x : Sect) : (bu_set_defaults x).y_bar = x.y_bar := by
  simp only [bu_set_defaults]; split_ifs <;> rfl
lemma bu_set_defaults_mass (x : Sect) : (bu_set_defaults x).mass = x.mass := by
  simp only [bu_set_defaults]; split_ifs <;> rfl
lemma hr_set_defaults_name (x : Sect) : (hr_set_defaults x).name = x.name := by
  simp only [hr_set_defaults]; split_ifs <;> rfl
lemma hr_set_defaults_sec_type (x : Sect) : (hr_set_defaults x).sec_type = x.sec_type := by
  simp only [hr_set_defaults]; split_ifs <;> rfl
lemma hr_set_defaults_d (x : Sect) : (hr_set_defaults x).d = x.d := by
  simp only [hr_set_defaults]; split_ifs <;> rfl
lemma hr_set_defaults_bf (x : Sect) : (hr_set_defaults x).bf = x.bf := by
  simp only [hr_set_defaults]; split_ifs <;> rfl
lemma hr_set_defaults_tf (x : Sect) : (hr_set_defaults x).tf = x.tf := by
  simp only [hr_set_defaults]; split_ifs <;> rfl
lemma hr_set_defaults_tw (x : Sect) : (hr_set_defaults x).tw = x.tw := by
  simp only [hr_set_defaults]; split_ifs <;> rfl
lemma hr_set_defaults_r (x : Sect) : (hr_set_defaults x).r = x.r := by
  simp only [hr_set_defaults]; split_ifs <;> rfl
lemma hr_set_defaults_has_cap (x : Sect) : (hr_set_defaults x).has_cap = x.has_cap := by
  simp only [hr_set_defaults]; split_ifs <;> rfl
lemma hr_set_defaults_cap_name (x : Sect) : (hr_set_defaults x).cap_name = x.cap_name := by
  simp only [hr_set_defaults]; split_ifs <;> rfl
lemma hr_set_defaults_cap_A (x : Sect) : (hr_set_defaults x).cap_A = x.cap_A := by
  simp only [hr_set_defaults]; split_ifs <;> rfl
lemma hr_set_defaults_cap_Ix (x : Sect) : (hr_set_defaults x).cap_Ix = x.cap_Ix := by
  simp only [hr_set_defaults]; split_ifs <;> rfl
lemma hr_set_defaults_cap_Iy (x : Sect) : (hr_set_defaults x).cap_Iy = x.cap_Iy := by
  simp only [hr_set_defaults]; split_ifs <;> rfl
lemma hr_set_defaults_cap_d (x : Sect) : (hr_set_defaults x).cap_d = x.cap_d := by
  simp only [hr_set_defaults]; split_ifs <;> rfl
lemma hr_set_defaults_cap_cy (x : Sect) : (hr_set_defaults x).cap_cy = x.cap_cy := by
  simp only [hr_set_defaults]; split_ifs <;> rfl
lemma hr_set_defaults_A (x : Sect) : (hr_set_defaults x).A = x.A := by
  simp only [hr_set_defaults]; split_ifs <;> rfl
lemma hr_set_defaults_Ix (x : Sect) : (hr_set_defaults x).Ix = x.Ix := by
  simp only [hr_set_defaults]; split_ifs <;> rfl
lemma hr_set_defaults_Iy (x : Sect) : (hr_set_defaults x).Iy = x.Iy := by
  simp only [hr_set_defaults]; split_ifs <;> rfl
lemma hr_set_defaults_Sx (x : Sect) : (hr_set_defaults x).Sx = x.Sx := by
  simp only [hr_set_defaults]; split_ifs <;> rfl
lemma hr_set_defaults_Sy (x : Sect) : (hr_set_defaults x).Sy = x.Sy := by
  simp only [hr_set_defaults]; split_ifs <;> rfl
lemma hr_set_defaults_Zx (x : Sect) : (hr_set_defaults x).Zx = x.Zx := by
  simp only [hr_set_defaults]; split_ifs <;> rfl
lemma hr_set_defaults_rx (x : Sect) : (hr_set_defaults x).rx = x.rx := by
  simp only [hr_set_defaults]; split_ifs <;> rfl
lemma hr_set_defaults_ry (x : Sect) : (hr_set_defaults x).ry = x.ry := by
  simp only [hr_set_defaults]; split_ifs <;> rfl
lemma hr_set_defaults_rts (x : Sect) : (hr_set_defaults x).rts = x.rts := by
  simp only [hr_set_defaults]; split_ifs <;> rfl
lemma hr_set_defaults_J (x : Sect) : (hr_set_defaults x).J = x.J := by
  simp only [hr_set_defaults]; split_ifs <;> rfl
lemma hr_set_defaults_Cw (x : Sect) : (hr_set_defaults x).Cw = x.Cw := by
  simp only [hr_set_defaults]; split_ifs <;> rfl
lemma hr_set_defaults_y_bar (x : Sect) : (hr_set_defaults x).y_bar = x.y_bar := by
  simp only [hr_set_defaults]; split_ifs <;> rfl
lemma hr_set_defaults_mass (x : Sect) : (hr_set_defaults x).mass = x.mass := by
  simp only [hr_set_defaults]; split_ifs <;> rfl
lemma bu_core_name (x : Sect) : (bu_core x).name = x.name := rfl
lemma bu_core_sec_type (x : Sect) : (bu_core x).sec_type = x.sec_type := rfl
lemma bu_core_d (x : Sect) : (bu_core x).d = x.d := rfl
lemma bu_core_bf (x : Sect) : (bu_core x).bf = x.bf := rfl
lemma bu_core_tf (x : Sect) : (bu_core x).tf = x.tf := rfl
lemma bu_core_tw (x : Sect) : (bu_core x).tw = x.tw := rfl
lemma bu_core_r (x : Sect) : (bu_core x).r = x.r := rfl
lemma bu_core_bf_top (x : Sect) : (bu_core x).bf_top = x.bf_top := rfl
lemma bu_core_tf_top (x : Sect) : (bu_core x).tf_top = x.tf_top := rfl
lemma bu_core_bf_bot (x : Sect) : (bu_core x).bf_bot = x.bf_bot := rfl
lemma bu_core_tf_bot (x : Sect) : (bu_core x).tf_bot = x.tf_bot := rfl
lemma bu_core_hw (x : Sect) : (bu_core x).hw = x.hw := rfl
lemma bu_core_has_cap (x : Sect) : (bu_core x).has_cap = x.has_cap := rfl
lemma bu_core_cap_name (x : Sect) : (bu_core x).cap_name = x.cap_name := rfl
lemma bu_core_cap_A (x : Sect) : (bu_core x).cap_A = x.cap_A := rfl
lemma bu_core_cap_Ix (x : Sect) : (bu_core x).cap_Ix = x.cap_Ix := rfl
lemma bu_core_cap_Iy (x : Sect) : (bu_core x).cap_Iy = x.cap_Iy := rfl
lemma bu_core_cap_d (x : Sect) : (bu_core x).cap_d = x.cap_d := rfl
lemma bu_core_cap_cy (x : Sect) : (bu_core x).cap_cy = x.cap_cy := rfl
lemma bu_core_Zx (x : Sect) : (bu_core x).Zx = x.Zx := rfl
lemma bu_core_rx (x : Sect) : (bu_core x).rx = x.rx := rfl
lemma bu_core_ry (x : Sect) : (bu_core x).ry = x.ry := rfl
lemma bu_core_rts (x : Sect) : (bu_core x).rts = x.rts := rfl
lemma bu_core_mass (x : Sect) : (bu_core x).mass = x.mass := rfl
lemma calc_common_props_name (ops : RealOps) (x : Sect) : (calc_common_props ops x).name = x.name := rfl
lemma calc_common_props_sec_type (ops : RealOps) (x : Sect) : (calc_common_props ops x).sec_type = x.sec_type := rfl
lemma calc_common_props_d (ops : RealOps) (x : Sect) : (calc_common_props ops x).d = x.d := rfl
lemma calc_common_props_bf (ops : RealOps) (x : Sect) : (calc_common_props ops x).bf = x.bf := rfl
lemma calc_common_props_tf (ops : RealOps) (x : Sect) : (calc_common_props ops x).tf = x.tf := rfl
lemma calc_common_props_tw (ops : RealOps) (x : Sect) : (calc_common_props ops x).tw = x.tw := rfl
lemma calc_common_props_r (ops : RealOps) (x : Sect) : (calc_common_props ops x).r = x.r := rfl
lemma calc_common_props_bf_top (ops : RealOps) (x : Sect) : (calc_common_props ops x).bf_top = x.bf_top := rfl
lemma calc_common_props_tf_top (ops : RealOps) (x : Sect) : (calc_common_props ops x).tf_top = x.tf_top := rfl
lemma calc_common_props_bf_bot (ops : RealOps) (x : Sect) : (calc_common_props ops x).bf_bot = x.bf_bot := rfl
lemma calc_common_props_tf_bot (ops : RealOps) (x : Sect) : (calc_common_props ops x).tf_bot = x.tf_bot := rfl
lemma calc_common_props_hw (ops : RealOps) (x : Sect) : (calc_common_props ops x).hw = x.hw := rfl
lemma calc_common_props_has_cap (ops : RealOps) (x : Sect) : (calc_common_props ops x).has_cap = x.has_cap := rfl
lemma calc_common_props_cap_name (ops : RealOps) (x : Sect) : (calc_common_props ops x).cap_name = x.cap_name := rfl
lemma calc_common_props_cap_A (ops : RealOps) (x : Sect) : (calc_common_props ops x).cap_A = x.cap_A := rfl
lemma calc_common_props_cap_Ix (ops : RealOps) (x : Sect) : (calc_common_props ops x).cap_Ix = x.cap_Ix := rfl
lemma calc_common_props_cap_Iy (ops : RealOps) (x : Sect) : (calc_common_props ops x).cap_Iy = x.cap_Iy := rfl
lemma calc_common_props_cap_d (ops : RealOps) (x : Sect) : (calc_common_props ops x).cap_d = x.cap_d := rfl
lemma calc_common_props_cap_cy (ops : RealOps) (x : Sect) : (calc_common_props ops x).cap_cy = x.cap_cy := rfl
lemma calc_common_props_A (ops : RealOps) (x : Sect) : (calc_common_props ops x).A = x.A := rfl
lemma calc_common_props_Ix (ops : RealOps) (x : Sect) : (calc_common_props ops x).Ix = x.Ix := rfl
lemma calc_common_props_Iy (ops : RealOps) (x : Sect) : (calc_common_props ops x).Iy = x.Iy := rfl
lemma calc_common_props_Sx (ops : RealOps) (x : Sect) : (calc_common_props ops x).Sx = x.Sx := rfl
lemma calc_common_props_Sy (ops : RealOps) (x : Sect) : (calc_common_props ops x).Sy = x.Sy := rfl
lemma calc_common_props_ho (ops : RealOps) (x : Sect) : (calc_common_props ops x).ho = x.ho := rfl
lemma calc_common_props_y_bar (ops : RealOps) (x : Sect) : (calc_common_props ops x).y_bar = x.y_bar := rfl
lemma hr_cap_name (x : Sect) : (hr_cap x).name = x.name := by
  simp only [hr_cap]; split_ifs <;> rfl
lemma hr_cap_sec_type (x : Sect) : (hr_cap x).sec_type = x.sec_type := by
  simp only [hr_cap]; split_ifs <;> rfl
lemma hr_cap_d (x : Sect) : (hr_cap x).d = x.d := by
  simp only [hr_cap]; split_ifs <;> rfl
lemma hr_cap_bf (x : Sect) : (hr_cap x).bf = x.bf := by
  simp only [hr_cap]; split_ifs <;> rfl
lemma hr_cap_tf (x : Sect) : (hr_cap x).tf = x.tf := by
  simp only [hr_cap]; split_ifs <;> rfl
lemma hr_cap_tw (x : Sect) : (hr_cap x).tw = x.tw := by
  simp only [hr_cap]; split_ifs <;> rfl
lemma hr_cap_r (x : Sect) : (hr_cap x).r = x.r := by
  simp only [hr_cap]; split_ifs <;> rfl
lemma hr_cap_bf_top (x : Sect) : (hr_cap x).bf_top = x.bf_top := by
  simp only [hr_cap]; split_ifs <;> rfl
lemma hr_cap_tf_top (x : Sect) : (hr_cap x).tf_top = x.tf_top := by
  simp only [hr_cap]; split_ifs <;> rfl
lemma hr_cap_bf_bot (x : Sect) : (hr_cap x).bf_bot = x.bf_bot := by
  simp only [hr_cap]; split_ifs <;> rfl
lemma hr_cap_tf_bot (x : Sect) : (hr_cap x).tf_bot = x.tf_bot := by
  simp only [hr_cap]; split_ifs <;> rfl
lemma hr_cap_hw (x : Sect) : (hr_cap x).hw = x.hw := by
  simp only [hr_cap]; split_ifs <;> rfl
lemma hr_cap_has_cap (x : Sect) : (hr_cap x).has_cap = x.has_cap := by
  simp only [hr_cap]; split_ifs <;> rfl
lemma hr_cap_cap_name (x : Sect) : (hr_cap x).cap_name = x.cap_name := by
  simp only [hr_cap]; split_ifs <;> rfl
lemma hr_cap_cap_A (x : Sect) : (hr_cap x).cap_A = x.cap_A := by
  simp only [hr_cap]; split_ifs <;> rfl
lemma hr_cap_cap_Ix (x : Sect) : (hr_cap x).cap_Ix = x.cap_Ix := by
  simp only [hr_cap]; split_ifs <;> rfl
lemma hr_cap_cap_Iy (x : Sect) : (hr_cap x).cap_Iy = x.cap_Iy := by
  simp only [hr_cap]; split_ifs <;> rfl
lemma hr_cap_cap_d (x : Sect) : (hr_cap x).cap_d = x.cap_d := by
  simp only [hr_cap]; split_ifs <;> rfl
lemma hr_cap_cap_cy (x : Sect) : (hr_cap x).cap_cy = x.cap_cy := by
  simp only [hr_cap]; split_ifs <;> rfl
lemma hr_cap_Sy (x : Sect) : (hr_cap x).Sy = x.Sy := by
  simp only [hr_cap]; split_ifs <;> rfl
lemma hr_cap_Zx (x : Sect) : (hr_cap x).Zx = x.Zx := by
  simp only [hr_cap]; split_ifs <;> rfl
lemma hr_cap_rx (x : Sect) : (hr_cap x).rx = x.rx := by
  simp only [hr_cap]; split_ifs <;> rfl
lemma hr_cap_ry (x : Sect) : (hr_cap x).ry = x.ry := by
  simp only [hr_cap]; split_ifs <;> rfl
lemma hr_cap_rts (x : Sect) : (hr_cap x).rts = x.rts := by
  simp only [hr_cap]; split_ifs <;> rfl
lemma hr_cap_J (x : Sect) : (hr_cap x).J = x.J := by
  simp only [hr_cap]; split_ifs <;> rfl
lemma hr_cap_Cw (x : Sect) : (hr_cap x).Cw = x.Cw := by
  simp only [hr_cap]; split_ifs <;> rfl
lemma hr_cap_ho (x : Sect) : (hr_cap x).ho = x.ho := by
  simp only [hr_cap]; split_ifs <;> rfl
lemma hr_cap_mass (x : Sect) : (hr_cap x).mass = x.mass := by
  simp only [hr_cap]; split_ifs <;> rfl
end Sect

namespace Sect

lemma bu_set_defaults_bf_top (x : Sect) :
    (bu_set_defaults x).bf_top = if x.bf_top = 0 then x.bf else x.bf_top := by
  simp only [bu_set_defaults]; split_ifs <;> rfl

lemma bu_set_defaults_tf_top (x : Sect) :
    (bu_set_defaults x).tf_top = if x.bf_top = 0 then x.tf else x.tf_top := by
  simp only [bu_set_defaults]; split_ifs <;> rfl

lemma bu_set_defaults_bf_bot (x : Sect) :
    (bu_set_defaults x).bf_bot = if x.bf_top = 0 then x.bf else x.bf_bot := by
  simp only [bu_set_defaults]; split_ifs <;> rfl

lemma bu_set_defaults_tf_bot (x : Sect) :
    (bu_set_defaults x).tf_bot = if x.bf_top = 0 then x.tf else x.tf_bot := by
  simp only [bu_set_defaults]; split_ifs <;> rfl

lemma bu_set_defaults_hw (x : Sect) :
    (bu_set_defaults x).hw = if x.hw = 0 then
        x.d - (if x.bf_top = 0 then x.tf else x.tf_top)
          - (if x.bf_top = 0 then x.tf else x.tf_bot)
      else x.hw := by
  simp only [bu_set_defaults]; split_ifs <;> rfl

lemma hr_set_defaults_hw (x : Sect) :
    (hr_set_defaults x).hw = if x.hw = 0 then x.d - 2 * x.tf else x.hw := by
  simp only [hr_set_defaults]; split_ifs <;> rfl

lemma hr_set_defaults_ho (x : Sect) :
    (hr_set_defaults x).ho = if x.ho = 0 then x.d - x.tf else x.ho := by
  simp only [hr_set_defaults]; split_ifs <;> rfl

lemma hr_set_defaults_bf_top (x : Sect) :
    (hr_set_defaults x).bf_top = if x.bf_top = 0 then x.bf else x.bf_top := by
  simp only [hr_set_defaults]; split_ifs <;> rfl

lemma hr_set_defaults_tf_top (x : Sect) :
    (hr_set_defaults x).tf_top = if x.bf_top = 0 then x.tf else x.tf_top := by
  simp only [hr_set_defaults]; split_ifs <;> rfl

lemma hr_set_defaults_bf_bot (x : Sect) :
    (hr_set_defaults x).bf_bot = if x.bf_top = 0 then x.bf else x.bf_bot := by
  simp only [hr_set_defaults]; split_ifs <;> rfl

lemma hr_set_defaults_tf_bot (x : Sect) :
    (hr_set_defaults x).tf_bot = if x.bf_top = 0 then x.tf else x.tf_bot := by
  simp only [hr_set_defaults]; split_ifs <;> rfl

lemma calc_common_props_rx (ops : RealOps) (x : Sect) :
    (calc_common_props ops x).rx
      = if 0 < x.A then (if 0 < x.Ix then ops.sqrt (x.Ix / x.A) else 0) else x.rx := rfl

lemma calc_common_props_ry (ops : RealOps) (x : Sect) :
    (calc_common_props ops x).ry
      = if 0 < x.A then (if 0 < x.Iy then ops.sqrt (x.Iy / x.A) else 0) else x.ry := rfl

lemma calc_common_props_Zx (ops : RealOps) (x : Sect) :
    (calc_common_props ops x).Zx
      = if x.Zx = 0 ∧ 0 < x.Sx then x.Sx * 1.12 else x.Zx := rfl

lemma calc_common_props_J (ops : RealOps) (x : Sect) :
    (calc_common_props ops x).J
      = if x.J = 0 then (2 * x.bf * x.tf ^ 3 + x.hw * x.tw ^ 3) / 3 else x.J := rfl

lemma calc_common_props_Cw (ops : RealOps) (x : Sect) :
    (calc_common_props ops x).Cw
      = if x.Cw = 0 ∧ 0 < x.ho ∧ 0 < x.Iy then x.Iy * x.ho ^ 2 / 4 else x.Cw := rfl

lemma calc_common_props_rts (ops : RealOps) (x : Sect) :
    (calc_common_props ops x).rts
      = if x.rts = 0 ∧ 0 < x.Sx ∧ 0 < x.Iy ∧ 0 < (calc_common_props ops x).Cw then
          ops.sqrt (ops.sqrt (x.Iy * (calc_common_props ops x).Cw) / x.Sx)
        else x.rts := rfl

lemma calc_common_props_mass (ops : RealOps) (x : Sect) :
    (calc_common_props ops x).mass
      = if x.mass = 0 ∧ 0 < x.A then
          x.A * RHO_STEEL / 1000000 +
            (if x.has_cap ∧ 0 < x.cap_A then x.cap_A * RHO_STEEL / 1000000 else 0)
        else x.mass := rfl

end Sect

namespace Sect

lemma common_master (ops : RealOps) (w t : Sect)
    (hname : t.name = w.name) (hst : t.sec_type = w.sec_type) (hd : t.d = w.d)
    (hbf : t.bf = w.bf) (htf : t.tf = w.tf) (htw : t.tw = w.tw) (hrr : t.r = w.r)
    (hbft : t.bf_top = w.bf_top) (htft : t.tf_top = w.tf_top)
    (hbfb : t.bf_bot = w.bf_bot) (htfb : t.tf_bot = w.tf_bot) (hhw : t.hw = w.hw)
    (hhc : t.has_cap = w.has_cap) (hcn : t.cap_name = w.cap_name)
    (hcA : t.cap_A = w.cap_A) (hcIx : t.cap_Ix = w.cap_Ix) (hcIy : t.cap_Iy = w.cap_Iy)
    (hcd : t.cap_d = w.cap_d) (hccy : t.cap_cy = w.cap_cy)
    (hA : t.A = w.A) (hIx : t.Ix = w.Ix) (hIy : t.Iy = w.Iy) (hSx : t.Sx = w.Sx)
    (hSy : t.Sy = w.Sy) (hho : t.ho = w.ho) (hyb : t.y_bar = w.y_bar)
    (hrx : t.rx = (calc_common_props ops w).rx)
    (hry : t.ry = (calc_common_props ops w).ry)
    (hZx : t.Zx = (calc_common_props ops w).Zx)
    (hrts : t.rts = (calc_common_props ops w).rts)
    (hmass : t.mass = (calc_common_props ops w).mass)
    (hJ : t.J = w.J ∨ t.J = (calc_common_props ops w).J)
    (hCw : t.Cw = w.Cw ∨ t.Cw = (calc_common_props ops w).Cw) :
    calc_common_props ops t = calc_common_props ops w := by
  have hCw' : (calc_common_props ops t).Cw = (calc_common_props ops w).Cw := by
    rcases hCw with h | h
    · rw [calc_common_props_Cw, calc_common_props_Cw, h, hho, hIy]
    · rw [calc_common_props_Cw, h, hho, hIy, calc_common_props_Cw]
      split_ifs <;> rfl
  have hJ' : (calc_common_props ops t).J = (calc_common_props ops w).J := by
    rcases hJ with h | h
    · rw [calc_common_props_J, calc_common_props_J, h, hbf, htf, hhw, htw]
    · rw [calc_common_props_J, h, hbf, htf, hhw, htw, calc_common_props_J]
      split_ifs <;> rfl
  refine Sect.ext ?_ ?_ ?_ ?_ ?_ ?_ ?_ ?_ ?_ ?_ ?_ ?_ ?_ ?_ ?_ ?_ ?_ ?_ ?_ ?_ ?_
    ?_ ?_ ?_ ?_ ?_ ?_ ?_ ?_ ?_ ?_ ?_ ?_
  · rw [calc_common_props_name, calc_common_props_name, hname]
  · rw [calc_common_props_sec_type, calc_common_props_sec_type, hst]
  · rw [calc_common_props_d, calc_common_props_d, hd]
  · rw [calc_common_props_bf, calc_common_props_bf, hbf]
  · rw [calc_common_props_tf, calc_common_props_tf, htf]
  · rw [calc_common_props_tw, calc_common_props_tw, htw]
  · rw [calc_common_props_r, calc_common_props_r, hrr]
  · rw [calc_common_props_bf_top, calc_common_props_bf_top, hbft]
  · rw [calc_common_props_tf_top, calc_common_props_tf_top, htft]
  · rw [calc_common_props_bf_bot, calc_common_props_bf_bot, hbfb]
  · rw [calc_common_props_tf_bot, calc_common_props_tf_bot, htfb]
  · rw [calc_common_props_hw, calc_common_props_hw, hhw]
  · rw [calc_common_props_has_cap, calc_common_props_has_cap, hhc]
  · rw [calc_common_props_cap_name, calc_common_props_cap_name, hcn]
  · rw [calc_common_props_cap_A, calc_common_props_cap_A, hcA]
  · rw [calc_common_props_cap_Ix, calc_common_props_cap_Ix, hcIx]
  · rw [calc_common_props_cap_Iy, calc_common_props_cap_Iy, hcIy]
  · rw [calc_common_props_cap_d, calc_common_props_cap_d, hcd]
  · rw [calc_common_props_cap_cy, calc_common_props_cap_cy, hccy]
  · rw [calc_common_props_A, calc_common_props_A, hA]
  · rw [calc_common_props_Ix, calc_common_props_Ix, hIx]
  · rw [calc_common_props_Iy, calc_common_props_Iy, hIy]
  · rw [calc_common_props_Sx, calc_common_props_Sx, hSx]
  · rw [calc_common_props_Sy, calc_common_props_Sy, hSy]
  · rw [calc_common_props_Zx, hZx, hSx, calc_common_props_Zx]
    split_ifs <;> rfl
  · rw [calc_common_props_rx, hrx, hA, hIx, calc_common_props_rx]
    split_ifs <;> rfl
  · rw [calc_common_props_ry, hry, hA, hIy, calc_common_props_ry]
    split_ifs <;> rfl
  · rw [calc_common_props_rts, hrts, hSx, hIy, hCw', calc_common_props_rts]
    split_ifs <;> rfl
  · exact hJ'
  · exact hCw'
  · rw [calc_common_props_ho, calc_common_props_ho, hho]
  · rw [calc_common_props_y_bar, calc_common_props_y_bar, hyb]
  · rw [calc_common_props_mass, hmass, hA, hhc, hcA, calc_common_props_mass]
    split_ifs <;> rfl

end Sect

namespace Sect

lemma hr_cap_skip (x : Sect) (h : ¬(x.has_cap = true ∧ 0 < x.cap_A)) : hr_cap x = x := by
  unfold hr_cap
  rw [if_neg h]

lemma bu_set_defaults_stab (x y : Sect)
    (h1 : y.bf_top = (bu_set_defaults x).bf_top)
    (h2 : y.tf_top = (bu_set_defaults x).tf_top)
    (h3 : y.bf_bot = (bu_set_defaults x).bf_bot)
    (h4 : y.tf_bot = (bu_set_defaults x).tf_bot)
    (h5 : y.hw = (bu_set_defaults x).hw)
    (h6 : y.bf = x.bf) (h7 : y.tf = x.tf) (h8 : y.d = x.d) :
    bu_set_defaults y = y := by
  refine Sect.ext ?_ ?_ ?_ ?_ ?_ ?_ ?_ ?_ ?_ ?_ ?_ ?_ ?_ ?_ ?_ ?_ ?_ ?_ ?_ ?_ ?_
    ?_ ?_ ?_ ?_ ?_ ?_ ?_ ?_ ?_ ?_ ?_ ?_
  · exact bu_set_defaults_name y
  · exact bu_set_defaults_sec_type y
  · exact bu_set_defaults_d y
  · exact bu_set_defaults_bf y
  · exact bu_set_defaults_tf y
  · exact bu_set_defaults_tw y
  · exact bu_set_defaults_r y
  · rw [bu_set_defaults_bf_top, h1, h6, bu_set_defaults_bf_top]
    split_ifs <;> rfl
  · rw [bu_set_defaults_tf_top, h1, h2, h7, bu_set_defaults_bf_top,
      bu_set_defaults_tf_top]
    split_ifs <;> rfl
  · rw [bu_set_defaults_bf_bot, h1, h3, h6, bu_set_defaults_bf_top,
      bu_set_defaults_bf_bot]
    split_ifs <;> rfl
  · rw [bu_set_defaults_tf_bot, h1, h4, h7, bu_set_defaults_bf_top,
      bu_set_defaults_tf_bot]
    split_ifs <;> rfl
  · rw [bu_set_defaults_hw, h1, h2, h4, h5, h7, h8, bu_set_defaults_bf_top,
      bu_set_defaults_tf_top, bu_set_defaults_tf_bot, bu_set_defaults_hw]
    split_ifs <;> rfl
  · exact bu_set_defaults_has_cap y
  · exact bu_set_defaults_cap_name y
  · exact bu_set_defaults_cap_A y
  · exact bu_set_defaults_cap_Ix y
  · exact bu_set_defaults_cap_Iy y
  · exact bu_set_defaults_cap_d y
  · exact bu_set_defaults_cap_cy y
  · exact bu_set_defaults_A y
  · exact bu_set_defaults_Ix y
  · exact bu_set_defaults_Iy y
  · exact bu_set_defaults_Sx y
  · exact bu_set_defaults_Sy y
  · exact bu_set_defaults_Zx y
  · exact bu_set_defaults_rx y
  · exact bu_set_defaults_ry y
  · exact bu_set_defaults_rts y
  · exact bu_set_defaults_J y
  · exact bu_set_defaults_Cw y
  · exact bu_set_defaults_ho y
  · exact bu_set_defaults_y_bar y
  · exact bu_set_defaults_mass y

lemma hr_set_defaults_stab (x y : Sect)
    (h1 : y.hw = (hr_set_defaults x).hw)
    (h2 : y.ho = (hr_set_defaults x).ho)
    (h3 : y.bf_top = (hr_set_defaults x).bf_top)
    (h4 : y.tf_top = (hr_set_defaults x).tf_top)
    (h5 : y.bf_bot = (hr_set_defaults x).bf_bot)
    (h6 : y.tf_bot = (hr_set_defaults x).tf_bot)
    (h7 : y.bf = x.bf) (h8 : y.tf = x.tf) (h9 : y.d = x.d) :
    hr_set_defaults y = y := by
  refine Sect.ext ?_ ?_ ?_ ?_ ?_ ?_ ?_ ?_ ?_ ?_ ?_ ?_ ?_ ?_ ?_ ?_ ?_ ?_ ?_ ?_ ?_
    ?_ ?_ ?_ ?_ ?_ ?_ ?_ ?_ ?_ ?_ ?_ ?_
  · exact hr_set_defaults_name y
  · exact hr_set_defaults_sec_type y
  · exact hr_set_defaults_d y
  · exact hr_set_defaults_bf y
  · exact hr_set_defaults_tf y
  · exact hr_set_defaults_tw y
  · exact hr_set_defaults_r y
  · rw [hr_set_defaults_bf_top, h3, h7, hr_set_defaults_bf_top]
    split_ifs <;> rfl
  · rw [hr_set_defaults_tf_top, h3, h4, h8, hr_set_defaults_bf_top,
      hr_set_defaults_tf_top]
    split_ifs <;> rfl
  · rw [hr_set_defaults_bf_bot, h3, h5, h7, hr_set_defaults_bf_top,
      hr_set_defaults_bf_bot]
    split_ifs <;> rfl
  · rw [hr_set_defaults_tf_bot, h3, h6, h8, hr_set_defaults_bf_top,
      hr_set_defaults_tf_bot]
    split_ifs <;> rfl
  · rw [hr_set_defaults_hw, h1, h8, h9, hr_set_defaults_hw]
    split_ifs <;> rfl
  · exact hr_set_defaults_has_cap y
  · exact hr_set_defaults_cap_name y
  · exact hr_set_defaults_cap_A y
  · exact hr_set_defaults_cap_Ix y
  · exact hr_set_defaults_cap_Iy y
  · exact hr_set_defaults_cap_d y
  · exact hr_set_defaults_cap_cy y
  · exact hr_set_defaults_A y
  · exact hr_set_defaults_Ix y
  · exact hr_set_defaults_Iy y
  · exact hr_set_defaults_Sx y
  · exact hr_set_defaults_Sy y
  · exact hr_set_defaults_Zx y
  · exact hr_set_defaults_rx y
  · exact hr_set_defaults_ry y
  · exact hr_set_defaults_rts y
  · exact hr_set_defaults_J y
  · exact hr_set_defaults_Cw y
  · rw [hr_set_defaults_ho, h2, h8, h9, hr_set_defaults_ho]
    split_ifs <;> rfl
  · exact hr_set_defaults_y_bar y
  · exact hr_set_defaults_mass y

end Sect

namespace Sect


lemma bu_core_common (ops : RealOps) (w : Sect) :
    bu_core (calc_common_props ops w) =
      { calc_common_props ops w with
        A := (bu_core w).A, y_bar := (bu_core w).y_bar, ho := (bu_core w).ho,
        Ix := (bu_core w).Ix, Iy := (bu_core w).Iy, Sx := (bu_core w).Sx,
        Sy := (bu_core w).Sy, J := (bu_core w).J, Cw := (bu_core w).Cw } := rfl

lemma bu_idem (ops : RealOps) (s : Sect) (hst : s.sec_type = "built_up") :
    calc_props ops (calc_props ops s) = calc_props ops s := by
  have e1 : calc_props ops s
      = calc_common_props ops (bu_core (bu_set_defaults s)) := by
    unfold calc_props
    rw [if_pos hst]
  rw [e1]
  have hst2 : (calc_common_props ops (bu_core (bu_set_defaults s))).sec_type
      = "built_up" := by
    rw [calc_common_props_sec_type, bu_core_sec_type, bu_set_defaults_sec_type, hst]
  have e2 : calc_props ops (calc_common_props ops (bu_core (bu_set_defaults s)))
      = calc_common_props ops (bu_core (bu_set_defaults
          (calc_common_props ops (bu_core (bu_set_defaults s))))) := by
    unfold calc_props
    rw [if_pos hst2]
  rw [e2]
  have e3 : bu_set_defaults (calc_common_props ops (bu_core (bu_set_defaults s)))
      = calc_common_props ops (bu_core (bu_set_defaults s)) :=
    bu_set_defaults_stab s _ rfl rfl rfl rfl rfl
      (by rw [calc_common_props_bf, bu_core_bf, bu_set_defaults_bf])
      (by rw [calc_common_props_tf, bu_core_tf, bu_set_defaults_tf])
      (by rw [calc_common_props_d, bu_core_d, bu_set_defaults_d])
  rw [e3]
  rw [bu_core_common ops (bu_core (bu_set_defaults s))]
  exact common_master ops (bu_core (bu_set_defaults s)) _ rfl rfl rfl rfl rfl rfl rfl
    rfl rfl rfl rfl rfl rfl rfl rfl rfl rfl rfl rfl rfl rfl rfl rfl rfl rfl rfl rfl
    rfl rfl rfl rfl (Or.inl rfl) (Or.inl rfl)

lemma hr_idem (ops : RealOps) (s : Sect) (hst : ¬(s.sec_type = "built_up"))
    (hcap : ¬(s.has_cap = true ∧ 0 < s.cap_A)) :
    calc_props ops (calc_props ops s) = calc_props ops s := by
  have hcap1 : ¬((hr_set_defaults s).has_cap = true ∧ 0 < (hr_set_defaults s).cap_A) := by
    rw [hr_set_defaults_has_cap, hr_set_defaults_cap_A]
    exact hcap
  have e1 : calc_props ops s = calc_common_props ops (hr_set_defaults s) := by
    unfold calc_props
    rw [if_neg hst, hr_cap_skip _ hcap1]
  rw [e1]
  have hst2 : ¬((calc_common_props ops (hr_set_defaults s)).sec_type = "built_up") := by
    rw [calc_common_props_sec_type, hr_set_defaults_sec_type]
    exact hst
  have hcap2 : ¬((hr_set_defaults (calc_common_props ops (hr_set_defaults s))).has_cap = true
      ∧ 0 < (hr_set_defaults (calc_common_props ops (hr_set_defaults s))).cap_A) := by
    rw [hr_set_defaults_has_cap, calc_common_props_has_cap, hr_set_defaults_has_cap,
      hr_set_defaults_cap_A, calc_common_props_cap_A, hr_set_defaults_cap_A]
    exact hcap
  have e2 : calc_props ops (calc_common_props ops (hr_set_defaults s))
      = calc_common_props ops (hr_set_defaults
          (calc_common_props ops (hr_set_defaults s))) := by
    unfold calc_props
    rw [if_neg hst2, hr_cap_skip _ hcap2]
  rw [e2]
  have e3 : hr_set_defaults (calc_common_props ops (hr_set_defaults s))
      = calc_common_props ops (hr_set_defaults s) :=
    hr_set_defaults_stab s _ rfl rfl rfl rfl rfl rfl
      (by rw [calc_common_props_bf, hr_set_defaults_bf])
      (by rw [calc_common_props_tf, hr_set_defaults_tf])
      (by rw [calc_common_props_d, hr_set_defaults_d])
  rw [e3]
  exact common_master ops (hr_set_defaults s) _ rfl rfl rfl rfl rfl rfl rfl
    rfl rfl rfl rfl rfl rfl rfl rfl rfl rfl rfl rfl rfl rfl rfl rfl rfl rfl rfl rfl
    rfl rfl rfl rfl (Or.inr rfl) (Or.inr rfl)

end Sect

namespace Sect

lemma calc_props_sec_type (ops : RealOps) (x : Sect) :
    (calc_props ops x).sec_type = x.sec_type := by
  unfold calc_props
  split_ifs
  · rw [calc_common_props_sec_type, bu_core_sec_type, bu_set_defaults_sec_type]
  · rw [calc_common_props_sec_type, hr_cap_sec_type, hr_set_defaults_sec_type]

lemma calc_props_has_cap (ops : RealOps) (x : Sect) :
    (calc_props ops x).has_cap = x.has_cap := by
  unfold calc_props
  split_ifs
  · rw [calc_common_props_has_cap, bu_core_has_cap, bu_set_defaults_has_cap]
  · rw [calc_common_props_has_cap, hr_cap_has_cap, hr_set_defaults_has_cap]

lemma calc_props_cap_A (ops : RealOps) (x : Sect) :
    (calc_props ops x).cap_A = x.cap_A := by
  unfold calc_props
  split_ifs
  · rw [calc_common_props_cap_A, bu_core_cap_A, bu_set_defaults_cap_A]
  · rw [calc_common_props_cap_A, hr_cap_cap_A, hr_set_defaults_cap_A]

lemma calc_props_hr (ops : RealOps) (x : Sect) (hst : ¬(x.sec_type = "built_up")) :
    calc_props ops x = calc_common_props ops (hr_cap (hr_set_defaults x)) := by
  unfold calc_props
  rw [if_neg hst]

/-- The hot-rolled cap recombination adds the cap area to the *current*
area field whenever it runs. -/
lemma hr_cap_A_cap (x : Sect) (h : x.has_cap = true ∧ 0 < x.cap_A) :
    (hr_cap x).A = (if 0 < x.A then x.A else 2 * x.bf * x.tf + x.hw * x.tw) + x.cap_A := by
  unfold hr_cap
  rw [if_pos h]

end Sect

/-- A hot-rolled catalog section with a cap channel: IPE-like numbers with a
100 mm² cap. -/
def sec3 : Sect :=
  { d := 100, bf := 50, tf := 10, tw := 10, A := 500, Ix := 10000,
    Iy := 2000, Sx := 200, has_cap := true, cap_A := 100, cap_Ix := 1000,
    cap_d := 20, cap_cy := 5 }

/-- C3 counterexample: re-invoking `calc_props` on a hot-rolled section with
a cap channel is *not* idempotent — the cap recombination reads the already
cap-augmented area and adds the cap area again, so the derived area changes
from 600 to 700 mm² on the second invocation. -/
theorem C3_counterexample :
    sec3.sec_type = "hot_rolled" ∧ sec3.has_cap = true ∧ 0 < sec3.cap_A ∧
    (Sect.calc_props ops0 (Sect.calc_props ops0 sec3)).A
      ≠ (Sect.calc_props ops0 sec3).A := by
  have hst3 : ¬(sec3.sec_type = "built_up") := by
    have h : ¬("hot_rolled" = "built_up") := by decide
    exact h
  have hcap3 : (Sect.hr_set_defaults sec3).has_cap = true
      ∧ 0 < (Sect.hr_set_defaults sec3).cap_A := by
    rw [Sect.hr_set_defaults_has_cap, Sect.hr_set_defaults_cap_A]
    exact ⟨rfl, by norm_num [sec3]⟩
  have hA1 : (Sect.calc_props ops0 sec3).A = 600 := by
    rw [Sect.calc_props_hr ops0 _ hst3, Sect.calc_common_props_A,
      Sect.hr_cap_A_cap _ hcap3,
      Sect.hr_set_defaults_A, Sect.hr_set_defaults_cap_A]
    norm_num [sec3]
  have hst_v : ¬((Sect.calc_props ops0 sec3).sec_type = "built_up") := by
    rw [Sect.calc_props_sec_type]
    exact hst3
  have hcap_v : (Sect.hr_set_defaults (Sect.calc_props ops0 sec3)).has_cap = true
      ∧ 0 < (Sect.hr_set_defaults (Sect.calc_props ops0 sec3)).cap_A := by
    rw [Sect.hr_set_defaults_has_cap, Sect.calc_props_has_cap,
      Sect.hr_set_defaults_cap_A, Sect.calc_props_cap_A]
    exact ⟨rfl, by norm_num [sec3]⟩
  have hA2 : (Sect.calc_props ops0 (Sect.calc_props ops0 sec3)).A = 700 := by
    rw [Sect.calc_props_hr ops0 _ hst_v, Sect.calc_common_props_A,
      Sect.hr_cap_A_cap _ hcap_v,
      Sect.hr_set_defaults_A, Sect.hr_set_defaults_cap_A, Sect.calc_props_cap_A, hA1]
    rw [if_pos (by norm_num : (0:ℚ) < 600)]
    norm_num [sec3]
  refine ⟨rfl, rfl, by norm_num [sec3], ?_⟩
  rw [hA1, hA2]
  norm_num

/-- A built-up section used by the C3 witness. -/
def secBU : Sect := { sec_type := "built_up", d := 300, bf := 150, tf := 10, tw := 8 }

/-- A section with all finishing-step fields already nonzero, used by the C3
witness. -/
def secT : Sect := { Zx := 5, J := 7, Cw := 3, rts := 2, mass := 11 }

/-- C3 amended: `calc_props` is idempotent for built-up sections (with or
without cap) and for hot-rolled sections without an active cap channel (the
hot-rolled cap path double-counts the cap, see the counterexample); and the
common finishing step never overwrites an already-nonzero `Zx`, `J`, `Cw`,
`rts` or `mass` (whereas it unconditionally recomputes `rx`/`ry` whenever
`A > 0`). -/
theorem C3_amended_idempotence (ops : RealOps) (s t : Sect)
    (h : s.sec_type = "built_up" ∨ ¬(s.has_cap = true ∧ 0 < s.cap_A)) :
    Sect.calc_props ops (Sect.calc_props ops s) = Sect.calc_props ops s ∧
    (t.Zx ≠ 0 → (Sect.calc_common_props ops t).Zx = t.Zx) ∧
    (t.J ≠ 0 → (Sect.calc_common_props ops t).J = t.J) ∧
    (t.Cw ≠ 0 → (Sect.calc_common_props ops t).Cw = t.Cw) ∧
    (t.rts ≠ 0 → (Sect.calc_common_props ops t).rts = t.rts) ∧
    (t.mass ≠ 0 → (Sect.calc_common_props ops t).mass = t.mass) := by
  refine ⟨?_, ?_, ?_, ?_, ?_, ?_⟩
  · by_cases hst : s.sec_type = "built_up"
    · exact Sect.bu_idem ops s hst
    · rcases h with h | h
      · exact absurd h hst
      · exact Sect.hr_idem ops s hst h
  · intro hz
    rw [Sect.calc_common_props_Zx, if_neg (fun hh => hz hh.1)]
  · intro hj
    rw [Sect.calc_common_props_J, if_neg hj]
  · intro hc
    rw [Sect.calc_common_props_Cw, if_neg (fun hh => hc hh.1)]
  · intro hrt
    rw [Sect.calc_common_props_rts, if_neg (fun hh => hrt hh.1)]
  · intro hm
    rw [Sect.calc_common_props_mass, if_neg (fun hh => hm hh.1)]

/-- Witness for C3 amended: a concrete built-up section and a concrete
section with every finishing-step field already set. -/
theorem C3_amended_idempotence_witness :
    Sect.calc_props ops0 (Sect.calc_props ops0 secBU) = Sect.calc_props ops0 secBU ∧
    (secT.Zx ≠ 0 → (Sect.calc_common_props ops0 secT).Zx = secT.Zx) ∧
    (secT.J ≠ 0 → (Sect.calc_common_props ops0 secT).J = secT.J) ∧
    (secT.Cw ≠ 0 → (Sect.calc_common_props ops0 secT).Cw = secT.Cw) ∧
    (secT.rts ≠ 0 → (Sect.calc_common_props ops0 secT).rts = secT.rts) ∧
    (secT.mass ≠ 0 → (Sect.calc_common_props ops0 secT).mass = secT.mass) :=
  C3_amended_idempotence ops0 secBU secT (Or.inl rfl)
